import Mathlib

/-!
Verification of the multi-agent banking workshop backend.

The definitions below are a shallow embedding of the Python source:
`backend/multi_agent_banking.py` (routing), `backend/chat_data_model.py`
(trace reconciliation, registries, tool-usage logging),
`backend/agent_analytics.py` (content-safety fallback handler),
`backend/tools/database_query.py` (ad-hoc query guard) and
`backend/banking_app.py` (money transfer).  Database tables are modelled as
Lean lists, SQLAlchemy inserts as list appends, UUID generation as a
deterministic fresh-id counter, and Python strings/dicts as Lean strings and
inductive values.  Theorems then settle the specification claims.
-/

namespace BankingFabric

/-! ### String helpers mirroring Python semantics

`lowerStr`/`upperStr` mirror `str.lower()`/`str.upper()` (ASCII case map,
which covers every string the code compares), `strContainsSub` mirrors the
Python `in` operator on strings (empty needle is contained in everything). -/

def lowerStr (s : String) : String := ⟨s.data.map Char.toLower⟩

def upperStr (s : String) : String := ⟨s.data.map Char.toUpper⟩

def charsPrefixOf : List Char → List Char → Bool
  | [], _ => true
  | _ :: _, [] => false
  | a :: as, b :: bs => a == b && charsPrefixOf as bs

def charsContains : List Char → List Char → Bool
  | [], needle => needle.isEmpty
  | c :: t, needle => charsPrefixOf needle (c :: t) || charsContains t needle

def strContainsSub (hay needle : String) : Bool :=
  charsContains hay.data needle.data

/-- Python truthiness of a string (`""` is falsy). -/
def pyTruthyStr (s : String) : Bool := !s.data.isEmpty

/-- Python truthiness of an optional string (`None` and `""` are falsy). -/
def truthyOptStr : Option String → Bool
  | none => false
  | some s => pyTruthyStr s

/-- Python `v or fallback` for an optional string argument. -/
def orElseStr (v : Option String) (fallback : String) : String :=
  match v with
  | some s => if pyTruthyStr s then s else fallback
  | none => fallback

/-- `startswith` over the character lists (total, kernel-reducible). -/
def strStartsWith (s pre : String) : Bool := charsPrefixOf pre.data s.data

/-- The character class `[\s\n\t;()]` used by `re.split` in `read_data`
(ASCII whitespace plus `;`, `(`, `)`). -/
def pySepChar (c : Char) : Bool :=
  c == ' ' || c == '\t' || c == '\n' || c == '\r' || c == '\x0b' || c == '\x0c' ||
  c == ';' || c == '(' || c == ')'

/-- ASCII whitespace stripped by Python `str.strip()`. -/
def isPyWhitespace (c : Char) : Bool :=
  c == ' ' || c == '\t' || c == '\n' || c == '\r' || c == '\x0b' || c == '\x0c'

def trimStr (s : String) : String :=
  ⟨((s.data.dropWhile isPyWhitespace).reverse.dropWhile isPyWhitespace).reverse⟩

def splitCharsAux (p : Char → Bool) : List Char → List Char → List String
  | [], acc => [⟨acc.reverse⟩]
  | c :: rest, acc =>
      if p c then (⟨acc.reverse⟩ : String) :: splitCharsAux p rest []
      else splitCharsAux p rest (c :: acc)

/-- `re.split` on a character class (keeps empty fields, like Python). -/
def splitStr (p : Char → Bool) (s : String) : List String := splitCharsAux p s.data []

def strTake (s : String) (n : Nat) : String := ⟨s.data.take n⟩

def strDrop (s : String) (n : Nat) : String := ⟨s.data.drop n⟩

/-- A single-quote character, as a string. -/
def sq : String := String.singleton (Char.ofNat 39)

/-! ### Python values

Tool outputs flowing through the reconciler are either JSON strings (what
the banking tools return) or dicts with string values (as in the error
payload of the spec scenarios).  `pyStr` mirrors Python `str()` on these,
`pyReprOfOpt` additionally maps `None` to `"None"`. -/

inductive PyVal where
  | pstr (s : String)
  | pdict (kvs : List (String × String))
  deriving Repr, DecidableEq

def pyEntriesRepr : List (String × String) → String
  | [] => ""
  | [kv] => sq ++ kv.1 ++ sq ++ ": " ++ sq ++ kv.2 ++ sq
  | kv :: rest => sq ++ kv.1 ++ sq ++ ": " ++ sq ++ kv.2 ++ sq ++ ", " ++ pyEntriesRepr rest

def pyStr : PyVal → String
  | .pstr s => s
  | .pdict kvs => "\x7b" ++ pyEntriesRepr kvs ++ "\x7d"

/-- `str(x)` where `x` may be `None`. -/
def pyStrOfOpt : Option PyVal → String
  | none => "None"
  | some v => pyStr v

/-! ### Database model (chat_data_model.py)

Each SQLAlchemy table becomes a list of rows; `db.session.add` + `commit`
becomes a list append; `uuid.uuid4()` becomes a deterministic fresh-id
counter `next_uuid`.  Columns that no code path of the claims ever reads
(`created_at`, `content_filter_results`, the `chat_sessions` table) are
omitted. -/

structure AgentDefinitionRec where
  agent_id : String
  name : String
  description : String
  llm_config : String       -- opaque JSON blob (never structurally read)
  prompt_template : String
  deriving Repr, DecidableEq

structure ToolDefinitionRec where
  tool_id : String
  name : String
  description : String
  input_schema : String     -- opaque JSON blob (never structurally read)
  version : String
  is_active : Bool
  deriving Repr, DecidableEq

structure AgentTraceRow where
  session_id : String
  trace_id : String
  user_id : String
  step_order : Nat
  from_agent : String
  current_agent : String
  execution_duration_ms : ℚ
  success : Bool            -- column default True; `_log_agent_routing` never sets it
  error_message : Option String  -- column default NULL; never set
  deriving Repr, DecidableEq

structure ChatHistoryRow where
  message_id : String
  session_id : String
  user_id : String
  agent_id : Option String
  agent_name : Option String
  trace_id : String
  message_type : String     -- "human" | "ai" | "tool_call" | "tool_result"
  content : String
  routing_step : Nat
  model_name : Option String
  total_tokens : Option Nat
  completion_tokens : Option Nat
  prompt_tokens : Option Nat
  tool_id : Option String
  tool_name : Option String
  tool_input : Option String
  tool_output : Option PyVal
  tool_call_id : Option String
  finish_reason : Option String
  response_time_ms : Option ℚ
  deriving Repr, DecidableEq

structure ToolUsageRow where
  tool_call_id : Option String
  session_id : String
  trace_id : String
  tool_id : Option String
  tool_name : Option String
  tool_input : Option String
  tool_output : Option PyVal
  tool_message : String
  status : String           -- "Healthy" | "Errored"
  tokens_used : Option Nat
  executing_agent : String
  deriving Repr, DecidableEq

structure Database where
  chat_history : List ChatHistoryRow
  agent_traces : List AgentTraceRow
  tool_usage : List ToolUsageRow
  tool_defs : List ToolDefinitionRec
  agent_defs : List AgentDefinitionRec
  next_uuid : Nat
  deriving Repr, DecidableEq

/-! ### Tool & agent registry (get_or_create_…_definition)

The sequential embedding: the lookup and the insert see the same store, so
the unique-name insert cannot conflict and the `except` branch is
unreachable; both functions therefore always return `some id`.  The raced
variants below expose the conflict path for the concurrency claim. -/

/-- `os.getenv("AZURE_OPENAI_DEPLOYMENT", "gpt-4.1")`, modelled by its
fallback value. -/
def envDeployment : String := "gpt-4.1"

/-- The default `llm_config` dict of `get_or_create_agent_definition`,
as an opaque blob. -/
def defaultLlmConfig : String :=
  "\x7b" ++ sq ++ "model" ++ sq ++ ": " ++ sq ++ envDeployment ++ sq ++
    ", " ++ sq ++ "temperature" ++ sq ++ ": 0.1\x7d"

/-- The default `input_schema` dict of `get_or_create_tool_definition`,
as an opaque blob. -/
def defaultInputSchema : String :=
  "\x7b" ++ sq ++ "type" ++ sq ++ ": " ++ sq ++ "object" ++ sq ++
    ", " ++ sq ++ "properties" ++ sq ++ ": \x7b\x7d\x7d"

/-- `ChatHistoryManager.get_or_create_agent_definition` (chat_data_model.py
lines 179-217).  Python defaults: all three fallbacks default to `None`. -/
def get_or_create_agent_definition (db : Database) (agent_name : String)
    (description : Option String) (llm_config : Option String)
    (prompt_template : Option String) : Option String × Database :=
  match db.agent_defs.find? (fun a => a.name == agent_name) with
  | some existing => (some existing.agent_id, db)
  | none =>
      let default_llm_config := orElseStr llm_config defaultLlmConfig
      let default_description :=
        orElseStr description ("Dynamically discovered agent: " ++ agent_name)
      let default_prompt :=
        orElseStr prompt_template
          ("You are " ++ agent_name ++ " agent in a multi-agent banking system.")
      let new_id := "agent_" ++ toString db.next_uuid
      let new_agent : AgentDefinitionRec :=
        { agent_id := new_id, name := agent_name,
          description := default_description,
          llm_config := default_llm_config, prompt_template := default_prompt }
      (some new_id,
        { db with agent_defs := db.agent_defs ++ [new_agent],
                  next_uuid := db.next_uuid + 1 })

/-- `ChatHistoryManager.get_or_create_tool_definition` (chat_data_model.py
lines 220-253).  Python defaults: both fallbacks default to `None`. -/
def get_or_create_tool_definition (db : Database) (tool_name : String)
    (description : Option String) (input_schema : Option String) :
    Option String × Database :=
  match db.tool_defs.find? (fun t => t.name == tool_name) with
  | some existing => (some existing.tool_id, db)
  | none =>
      let default_description :=
        orElseStr description ("Dynamically discovered tool: " ++ tool_name)
      let default_schema := orElseStr input_schema defaultInputSchema
      let new_id := "tooldef_" ++ toString db.next_uuid
      let new_tool : ToolDefinitionRec :=
        { tool_id := new_id, name := tool_name,
          description := default_description, input_schema := default_schema,
          version := "1.0.0", is_active := true }
      (some new_id,
        { db with tool_defs := db.tool_defs ++ [new_tool],
                  next_uuid := db.next_uuid + 1 })

/-- The body of `get_or_create_tool_definition` when the backing store is
shared with concurrent writers: `lookup_result` is the row the name query
returned (possibly a stale `None` read), and `insert_conflicts` records that
the subsequent INSERT raised the unique-name violation because another
reconciliation committed the row in between.  The `except` branch (lines
250-253) rolls the session back and returns `None`. -/
def get_or_create_tool_definition_raced (db : Database) (tool_name : String)
    (description : Option String) (input_schema : Option String)
    (lookup_result : Option ToolDefinitionRec) (insert_conflicts : Bool) :
    Option String × Database :=
  match lookup_result with
  | some existing => (some existing.tool_id, db)
  | none =>
      if insert_conflicts then (none, db)
      else
        let default_description :=
          orElseStr description ("Dynamically discovered tool: " ++ tool_name)
        let default_schema := orElseStr input_schema defaultInputSchema
        let new_id := "tooldef_" ++ toString db.next_uuid
        let new_tool : ToolDefinitionRec :=
          { tool_id := new_id, name := tool_name,
            description := default_description, input_schema := default_schema,
            version := "1.0.0", is_active := true }
        (some new_id,
          { db with tool_defs := db.tool_defs ++ [new_tool],
                    next_uuid := db.next_uuid + 1 })

/-- The raced variant of `get_or_create_agent_definition` (lines 214-217 for
the `except` branch). -/
def get_or_create_agent_definition_raced (db : Database) (agent_name : String)
    (description : Option String) (llm_config : Option String)
    (prompt_template : Option String)
    (lookup_result : Option AgentDefinitionRec) (insert_conflicts : Bool) :
    Option String × Database :=
  match lookup_result with
  | some existing => (some existing.agent_id, db)
  | none =>
      if insert_conflicts then (none, db)
      else
        let default_llm_config := orElseStr llm_config defaultLlmConfig
        let default_description :=
          orElseStr description ("Dynamically discovered agent: " ++ agent_name)
        let default_prompt :=
          orElseStr prompt_template
            ("You are " ++ agent_name ++ " agent in a multi-agent banking system.")
        let new_agent : AgentDefinitionRec :=
          { agent_id := "agent_" ++ toString db.next_uuid, name := agent_name,
            description := default_description,
            llm_config := default_llm_config, prompt_template := default_prompt }
        (some new_agent.agent_id,
          { db with agent_defs := db.agent_defs ++ [new_agent],
                    next_uuid := db.next_uuid + 1 })

/-! ### Routing graph: `coordinator_node` (multi_agent_banking.py)

The LangGraph state carries the conversation and the routing decision; the
coordinator inspects the lowercased content of the most recent message and
routes on keyword containment. -/

structure ChatMessage where
  content : String
  deriving Repr, DecidableEq

structure BankingAgentState where
  messages : List ChatMessage
  current_agent : String
  task_type : String
  user_id : String
  session_id : String
  final_result : String
  deriving Repr, DecidableEq

/-- The account-related keyword list of `coordinator_node`
(`"income"` really appears twice in the source). -/
def account_keywords : List String :=
  ["account", "balance", "transaction", "transfer", "payment",
   "spending", "summary", "history", "money", "deposit", "withdraw",
   "credit", "debit", "checking", "savings", "expense", "income", "breakdown",
   "income", "statement", "funds", "pay", "send", "receive"]

/-- The content of the most recent message, `""` for an empty history
(`messages[-1].content if messages else ""`). -/
def lastMessageContent (state : BankingAgentState) : String :=
  (state.messages.getLast?.map ChatMessage.content).getD ""

/-- `coordinator_node` of `multi_agent_banking.py`: keyword-based routing to
`account_agent` or `support_agent`. -/
def coordinator_node (state : BankingAgentState) : BankingAgentState :=
  let message_lower := lowerStr (lastMessageContent state)
  if account_keywords.any (fun keyword => strContainsSub message_lower keyword) then
    { state with current_agent := "account_agent", task_type := "account_management" }
  else
    { state with current_agent := "support_agent", task_type := "customer_support" }

/-! ### Serialized trace messages

One entry of a hop batch, i.e. one element of
`_to_json_primitive(serialized_messages[i])`: a dict with a `__class__`
discriminant and the fields the reconciler reads.  `tool_calls` models
`additional_kwargs.tool_calls`; `[{}][0]`-style extraction of the first
requested call is `firstToolCall`. -/

structure ToolCallReqEntry where
  call_id : Option String       -- tool_calls[0].id
  func_name : Option String     -- tool_calls[0].function.name
  func_args : Option String     -- tool_calls[0].function.arguments
  deriving Repr, DecidableEq

structure TraceMsg where
  cls : String                  -- msg['__class__']
  id : String                   -- msg['id']
  content : String              -- human/AI text content
  finish_reason : Option String -- response_metadata.finish_reason
  tool_calls : List ToolCallReqEntry
  total_tokens : Option Nat
  completion_tokens : Option Nat
  prompt_tokens : Option Nat
  model_name : Option String
  name : String                 -- ToolMessage.name
  tool_call_id : String         -- ToolMessage.tool_call_id
  tool_output : PyVal           -- ToolMessage.content (serialized tool result)
  status : String               -- ToolMessage.status
  deriving Repr, DecidableEq

/-- `message.get("additional_kwargs", \x7b\x7d).get('tool_calls', [\x7b\x7d])[0]`:
the first requested tool call, or an all-`None` entry when the list is
empty. -/
def firstToolCall (m : TraceMsg) : ToolCallReqEntry :=
  m.tool_calls.headD { call_id := none, func_name := none, func_args := none }

/-- The dict built by `add_tool_call_message` and later merged with the
matching tool result (`tool_output`/`status` keys appear only after the
merge, hence the `Option`). -/
structure ToolCallInfo where
  tool_call_id : Option String
  tool_id : Option String
  tool_name : Option String
  tool_input : Option String
  total_tokens : Option Nat
  tool_output : Option PyVal
  status : Option String
  deriving Repr, DecidableEq

/-- `tool_call_dict.update(tool_result_dict)`. -/
def mergeToolInfo (tc : ToolCallInfo) (output : PyVal) (stat : String) : ToolCallInfo :=
  { tc with tool_output := some output, status := some stat }

/-! ### ChatHistoryManager message writers (chat_data_model.py) -/

/-- `if agent_name != "system": agent_id = get_or_create_agent_definition(...)`.
A `None` agent name is not `"system"`, so Python would attempt the lookup
and insert with `name=None`; the NOT NULL constraint makes that insert
raise and the `except` branch return `None`. -/
def resolveAgentId (db : Database) (agent_name : Option String) :
    Option String × Database :=
  match agent_name with
  | some an =>
      if an = "system" then (none, db)
      else get_or_create_agent_definition db an none none none
  | none => (none, db)

/-- `add_human_message` (lines 319-333). -/
def add_human_message (sid uid : String) (db : Database) (message : TraceMsg)
    (trace_id : String) (routing_step : Nat) : Database :=
  { db with chat_history := db.chat_history ++ [{
      message_id := message.id, session_id := sid, user_id := uid,
      agent_id := none, agent_name := none, trace_id := trace_id,
      message_type := "human", content := message.content,
      routing_step := routing_step, model_name := none, total_tokens := none,
      completion_tokens := none, prompt_tokens := none, tool_id := none,
      tool_name := none, tool_input := none, tool_output := none,
      tool_call_id := none, finish_reason := none, response_time_ms := none }] }

/-- `add_ai_message` (lines 335-369). -/
def add_ai_message (sid uid : String) (db : Database) (message : TraceMsg)
    (trace_id : String) (step_duration : ℚ) (agent_name : Option String)
    (routing_step : Nat) : Database :=
  let (agent_id, db1) := resolveAgentId db agent_name
  { db1 with chat_history := db1.chat_history ++ [{
      message_id := message.id, session_id := sid, user_id := uid,
      agent_id := agent_id, agent_name := agent_name, trace_id := trace_id,
      message_type := "ai", content := message.content,
      routing_step := routing_step, model_name := message.model_name,
      total_tokens := message.total_tokens,
      completion_tokens := message.completion_tokens,
      prompt_tokens := message.prompt_tokens, tool_id := none,
      tool_name := none, tool_input := none, tool_output := none,
      tool_call_id := none, finish_reason := message.finish_reason,
      response_time_ms := some step_duration }] }

/-- `add_tool_call_message` (lines 371-421): persists a `tool_call` row from
the FIRST entry of `tool_calls` and returns the pending-context dict. -/
def add_tool_call_message (sid uid : String) (db : Database) (message : TraceMsg)
    (trace_id : String) (agent_name : Option String) (routing_step : Nat) :
    ToolCallInfo × Database :=
  let (agent_id, db1) := resolveAgentId db agent_name
  let tool_name := (firstToolCall message).func_name
  let (tool_id, db2) :=
    match tool_name with
    | some tn =>
        get_or_create_tool_definition db1 tn
          (some ("Tool used by " ++ orElseStr agent_name "unknown agent")) none
    | none => (none, db1)   -- name=None insert violates NOT NULL ⇒ except ⇒ None
  let info : ToolCallInfo :=
    { tool_call_id := (firstToolCall message).call_id, tool_id := tool_id,
      tool_name := tool_name, tool_input := (firstToolCall message).func_args,
      total_tokens := message.total_tokens, tool_output := none, status := none }
  (info,
    { db2 with chat_history := db2.chat_history ++ [{
        message_id := message.id, session_id := sid, user_id := uid,
        agent_id := agent_id, agent_name := agent_name, trace_id := trace_id,
        message_type := "tool_call", content := "",
        routing_step := routing_step, model_name := message.model_name,
        total_tokens := message.total_tokens,
        completion_tokens := message.completion_tokens,
        prompt_tokens := message.prompt_tokens, tool_id := tool_id,
        tool_name := tool_name,
        tool_input := (firstToolCall message).func_args,
        tool_output := none,
        tool_call_id := (firstToolCall message).call_id,
        finish_reason := message.finish_reason, response_time_ms := none }] })

/-- `add_tool_result_message` (lines 423-455): persists a `tool_result` row
and returns the `\x7b"tool_output", "status"\x7d` dict. -/
def add_tool_result_message (sid uid : String) (db : Database) (message : TraceMsg)
    (trace_id : String) (agent_name : Option String) (routing_step : Nat) :
    (PyVal × String) × Database :=
  let (agent_id, db1) := resolveAgentId db agent_name
  let (tool_id, db2) :=
    get_or_create_tool_definition db1 message.name
      (some ("Tool used by " ++ orElseStr agent_name "unknown agent")) none
  ((message.tool_output, message.status),
    { db2 with chat_history := db2.chat_history ++ [{
        message_id := message.id, session_id := sid, user_id := uid,
        agent_id := agent_id, agent_name := agent_name, trace_id := trace_id,
        message_type := "tool_result", content := "",
        routing_step := routing_step, model_name := none, total_tokens := none,
        completion_tokens := none, prompt_tokens := none, tool_id := tool_id,
        tool_name := some message.name, tool_input := none,
        tool_output := some message.tool_output,
        tool_call_id := some message.tool_call_id,
        finish_reason := none, response_time_ms := none }] })

/-- `_log_agent_routing` (lines 304-318): appends one AgentTrace row.
`success`/`error_message` are not passed, so the column defaults
(`True`/NULL) apply. -/
def log_agent_routing (sid uid : String) (db : Database) (trace_id : String)
    (step_number : Nat) (from_agent current_agent : String)
    (execution_duration_ms : ℚ) : Database :=
  { db with agent_traces := db.agent_traces ++ [{
      session_id := sid, trace_id := trace_id, user_id := uid,
      step_order := step_number, from_agent := from_agent,
      current_agent := current_agent,
      execution_duration_ms := execution_duration_ms,
      success := true, error_message := none }] }

/-- `tool_msg` extraction in `log_tool_usage` (lines 486-490). -/
def toolMsgOf : Option PyVal → String
  | some (PyVal.pdict kvs) =>
      (((kvs.find? (fun kv => kv.1 == "message")).map Prod.snd)).getD ""
  | some v => pyStr v
  | none => "None"           -- str(None)

/-- The `Healthy`/`Errored` heuristic of `log_tool_usage` (lines 491-494):
`"error" in str(tool_output).lower()`. -/
def toolStatusOf (output : Option PyVal) : String :=
  if strContainsSub (lowerStr (pyStrOfOpt output)) "error" then "Errored"
  else "Healthy"

/-- The `if not tool_info.get("tool_id")` block of `log_tool_usage` (lines
496-506): resolve the tool id through auto-registration when the merged
context does not carry one (`tool_info["tool_id"] = tool_id` mutates the
dict, hence the returned context). -/
def resolveUsageToolId (db : Database) (tool_info : ToolCallInfo)
    (agent_name : String) : ToolCallInfo × Database :=
  if truthyOptStr tool_info.tool_id = true then (tool_info, db)
  else
    match tool_info.tool_name with
    | some tn =>
        let r := get_or_create_tool_definition db tn
          (some ("Tool used by " ++ agent_name)) none
        ({ tool_info with tool_id := r.1 }, r.2)
    | none => ({ tool_info with tool_id := none }, db)

/-- `log_tool_usage` (lines 483-537): upsert of the ToolUsage row keyed by
`tool_call_id`, with the substring-derived status; when the tool id cannot
be resolved the row is skipped with a warning. -/
def log_tool_usage (sid : String) (db : Database) (tool_info : ToolCallInfo)
    (trace_id : String) (agent_name : String) : Database :=
  let existing := db.tool_usage.find? (fun u => u.tool_call_id = tool_info.tool_call_id)
  let tool_msg := toolMsgOf tool_info.tool_output
  let tool_call_status := toolStatusOf tool_info.tool_output
  let (info2, db1) := resolveUsageToolId db tool_info agent_name
  if truthyOptStr info2.tool_id = false then db1   -- warn and skip logging
  else
    match existing with
    | some _ =>
        { db1 with tool_usage := db1.tool_usage.map (fun u =>
            if u.tool_call_id = tool_info.tool_call_id then
              { u with
                session_id := sid, trace_id := trace_id,
                tool_id := info2.tool_id, tool_name := tool_info.tool_name,
                tool_input := tool_info.tool_input,
                tool_output := tool_info.tool_output,
                tool_message := tool_msg, status := tool_call_status,
                tokens_used := tool_info.total_tokens,
                executing_agent := agent_name }
            else u) }
    | none =>
        { db1 with tool_usage := db1.tool_usage ++ [{
            tool_call_id := tool_info.tool_call_id, session_id := sid,
            trace_id := trace_id, tool_id := info2.tool_id,
            tool_name := tool_info.tool_name, tool_input := tool_info.tool_input,
            tool_output := tool_info.tool_output, tool_message := tool_msg,
            status := tool_call_status, tokens_used := tool_info.total_tokens,
            executing_agent := agent_name }] }

/-! ### add_multi_agent_trace (lines 255-302)

The loop state: the store, the seen-message-id list (`id_list`, scoped to
the whole call), the `prev_agent` variable (updated at the END of every
message iteration, hence not at all for an empty batch), and the last
`tool_call_dict` bound in this call (`'tool_call_dict' in locals()`). -/

structure ReconcileCtx where
  session_id : String
  user_id : String
  trace_id : String
  deriving Repr, DecidableEq

structure TraceState where
  db : Database
  id_list : List String
  prev_agent : String
  last_tool_call : Option ToolCallInfo
  deriving Repr, DecidableEq

/-- One iteration of the inner `for msg in trace_step_msg` loop. -/
def processMsg (ctx : ReconcileCtx) (agent_name : String) (step_number : Nat)
    (step_duration : ℚ) (ts : TraceState) (m : TraceMsg) : TraceState :=
  let ts1 :=
    if m.cls = "HumanMessage" then
      if m.id ∈ ts.id_list then ts
      else
        { ts with
          db := add_human_message ctx.session_id ctx.user_id ts.db m ctx.trace_id 0,
          id_list := ts.id_list ++ [m.id] }
    else if m.cls = "AIMessage" then
      if m.finish_reason ≠ some "tool_calls" then
        if m.id ∈ ts.id_list then ts
        else
          { ts with
            db := add_ai_message ctx.session_id ctx.user_id ts.db m ctx.trace_id
              step_duration (some agent_name) step_number,
            id_list := ts.id_list ++ [m.id] }
      else
        let r := add_tool_call_message ctx.session_id ctx.user_id ts.db m
          ctx.trace_id (some agent_name) step_number
        { ts with db := r.2, last_tool_call := some r.1 }
    else if m.cls = "ToolMessage" then
      let r := add_tool_result_message ctx.session_id ctx.user_id ts.db m
        ctx.trace_id (some agent_name) step_number
      match ts.last_tool_call with
      | some tc =>
          let merged := mergeToolInfo tc r.1.1 r.1.2
          { ts with
            db := log_tool_usage ctx.session_id r.2 merged ctx.trace_id agent_name,
            last_tool_call := some merged }
      | none => { ts with db := r.2 }
    else ts
  { ts1 with prev_agent := agent_name }

def processMsgs (ctx : ReconcileCtx) (agent_name : String) (step_number : Nat)
    (step_duration : ℚ) : TraceState → List TraceMsg → TraceState
  | ts, [] => ts
  | ts, m :: ms =>
      processMsgs ctx agent_name step_number step_duration
        (processMsg ctx agent_name step_number step_duration ts m) ms

/-- One hop of the reconciliation: the parallel-indexed triple
`(serialized_messages[i], nodes_list[i], event_times[i])`. -/
structure Hop where
  batch : List TraceMsg
  agent : String
  time_s : ℚ               -- event_times entry, in seconds
  deriving Repr, DecidableEq

/-- Iteration `i` of the outer `for i in range(len(serialized_messages))`
loop: log the routing row first, then process the batch.
`update_session_stats` touches only the (unmodelled) sessions table. -/
def processHop (ctx : ReconcileCtx) (ts : TraceState) (i : Nat) (h : Hop) :
    TraceState :=
  let step_duration := h.time_s * 1000
  let ts1 := { ts with
    db := log_agent_routing ctx.session_id ctx.user_id ts.db ctx.trace_id (i+1)
      ts.prev_agent h.agent step_duration }
  processMsgs ctx h.agent (i+1) step_duration ts1 h.batch

def runHops (ctx : ReconcileCtx) : TraceState → Nat → List Hop → TraceState
  | ts, _, [] => ts
  | ts, i, h :: hs => runHops ctx (processHop ctx ts i h) (i+1) hs

def initTraceState (db : Database) : TraceState :=
  { db := db, id_list := [], prev_agent := "system", last_tool_call := none }

/-- `add_multi_agent_trace`.  The fresh `trace_id` (`str(uuid.uuid4())`) is
passed in `ctx`; no claim depends on its value. -/
def add_multi_agent_trace (ctx : ReconcileCtx) (db : Database) (hops : List Hop) :
    Database :=
  (runHops ctx (initTraceState db) 0 hops).db

/-- Rows counted by the idempotence claim: persisted Human and (non-tool-call)
AI messages. -/
def isHumanAiRow (r : ChatHistoryRow) : Bool :=
  r.message_type == "human" || r.message_type == "ai"

def humanAiCount (db : Database) : Nat :=
  (db.chat_history.filter isHumanAiRow).length

/-- Messages subject to the seen-id dedup rule. -/
def dedupTracked (m : TraceMsg) : Bool :=
  m.cls == "HumanMessage" ||
    (m.cls == "AIMessage" && !(m.finish_reason == some "tool_calls"))

/-- The AgentTrace row written for a hop. -/
def hopTraceRow (ctx : ReconcileCtx) (step_number : Nat) (from_agent : String)
    (h : Hop) : AgentTraceRow :=
  { session_id := ctx.session_id, trace_id := ctx.trace_id,
    user_id := ctx.user_id, step_order := step_number, from_agent := from_agent,
    current_agent := h.agent, execution_duration_ms := h.time_s * 1000,
    success := true, error_message := none }

/-- What `prev_agent` holds after a run of hops: the agent of the last hop
with a non-empty batch, else the incoming value. -/
def lastAgentOf (prev : String) : List Hop → String
  | [] => prev
  | h :: hs => lastAgentOf (if h.batch.isEmpty then prev else h.agent) hs

/-- The AgentTrace rows the hop loop appends, in order. -/
def tracesForHops (ctx : ReconcileCtx) (prev : String) (i : Nat) :
    List Hop → List AgentTraceRow
  | [] => []
  | h :: hs =>
      hopTraceRow ctx (i+1) prev h ::
        tracesForHops ctx (if h.batch.isEmpty then prev else h.agent) (i+1) hs

/-! ### Content-safety fallback handler (agent_analytics.py, lines 137-206) -/

structure SafetyViolationRequest where
  session_id : String
  user_id : String
  trace_id : String
  user_message : Option String   -- res_dict.get("user_message")
  message : TraceMsg             -- res_dict["message"], the synthetic refusal
  agent_name : String            -- res_dict["agent_name"]
  deriving Repr, DecidableEq

/-- `log_content_safety_violation`: optionally persist the rejected human
message, then the synthetic refusal AI message, then one AgentTrace hop via
`_log_agent_routing` (which never sets `success`/`error_message`). -/
def log_content_safety_violation (db : Database) (req : SafetyViolationRequest) :
    Database :=
  let db1 :=
    if truthyOptStr req.user_message then
      let user_msg : TraceMsg :=
        { cls := "HumanMessage", id := "msg_" ++ toString db.next_uuid,
          content := req.user_message.getD "", finish_reason := none,
          tool_calls := [], total_tokens := none, completion_tokens := none,
          prompt_tokens := none, model_name := none, name := "",
          tool_call_id := "", tool_output := PyVal.pstr "", status := "" }
      add_human_message req.session_id req.user_id
        { db with next_uuid := db.next_uuid + 1 } user_msg req.trace_id 0
    else db
  let db2 := add_ai_message req.session_id req.user_id db1 req.message
    req.trace_id 0 (some req.agent_name) 1
  log_agent_routing req.session_id req.user_id db2 req.trace_id 1 "system"
    req.agent_name 0

/-! ### Ad-hoc database query tool (tools/database_query.py) -/

/-- What `read_data`/`query_database` does with a request: answer an
error-status payload without touching the database, execute a final SQL
string, or delegate to `describe_table`. -/
inductive QueryOutcome where
  | errorResult (message : String)
  | execute (final_query : String)
  | describeTable (schema table_name : String)
  deriving Repr, DecidableEq

def dangerous_keywords : List String :=
  ["DROP", "DELETE", "INSERT", "UPDATE", "ALTER", "CREATE", "TRUNCATE"]

/-- `DirectDatabaseTools.read_data` (lines 98-133, up to the execution):
SELECT-only guard, prohibited-token guard over
`re.split` tokens, limit clamping and TOP injection. -/
def read_data (query : String) (limit : Int) : QueryOutcome :=
  let query_upper := upperStr (trimStr query)
  if !strStartsWith query_upper "SELECT" then
    .errorResult "Only SELECT queries are allowed."
  else
    let tokens := splitStr pySepChar query_upper
    match dangerous_keywords.find? (fun kw => tokens.contains kw) with
    | some kw => .errorResult ("Query contains prohibited keyword: " ++ kw)
    | none =>
        let limit2 := min (max 1 limit) 1000
        if !strContainsSub query_upper "TOP" && !strContainsSub query_upper "LIMIT"
        then
          -- select_pos = query_upper.find("SELECT") = 0 (SELECT is a prefix)
          let q := trimStr query
          .execute (strTake q 6 ++ " TOP " ++ toString limit2 ++ strDrop q 6)
        else .execute query

/-- The Python default of the `limit` parameter of `query_database`. -/
def queryDatabaseDefaultLimit : Int := 100

/-- `query_database` (lines 171-217): action dispatch.  `table_name` and
`query` default to `None`, `schema` to `"dbo"`, `limit` to
`queryDatabaseDefaultLimit`. -/
def query_database (action : String) (table_name : Option String)
    (schema : String) (query : Option String) (limit : Int) : QueryOutcome :=
  if action = "describe" then
    if !truthyOptStr table_name then .errorResult "table_name required for describe"
    else .describeTable schema (table_name.getD "")
  else if action = "read" then
    if !truthyOptStr query then .errorResult "query required for read"
    else read_data (query.getD "") limit
  else
    .errorResult ("Unknown action: " ++ action ++ ". Use " ++ sq ++ "describe" ++
      sq ++ " or " ++ sq ++ "read" ++ sq)

/-! ### Money transfer (banking_app.py, lines 489-519)

Balances and amounts are Python floats; they are modelled as rationals
(exact arithmetic), which is faithful to the source's `+=`/`-=` algebra. -/

structure Account where
  id : Nat
  user_id : String
  name : String
  account_type : String
  balance : ℚ
  deriving Repr, DecidableEq

structure TransactionRec where
  from_account_id : Nat
  to_account_id : Option Nat
  amount : ℚ
  txn_type : String
  description : String
  category : String
  status : String
  deriving Repr, DecidableEq

structure Bank where
  accounts : List Account
  transactions : List TransactionRec
  deriving Repr, DecidableEq

structure TransferResult where
  status : String
  message : String
  deriving Repr, DecidableEq

/-- `Account.query.filter_by(user_id=..., name=...).first()`. -/
def findAccount (bank : Bank) (uid name : String) : Option Account :=
  bank.accounts.find? (fun a => a.user_id == uid && a.name == name)

/-- In-place balance mutation of the row with primary key `acc_id`. -/
def updBalance (accounts : List Account) (acc_id : Nat) (delta : ℚ) :
    List Account :=
  accounts.map (fun a =>
    if a.id = acc_id then { a with balance := a.balance + delta } else a)

/-- `to_external_details`: only its truthiness and `.get('name', 'External')`
are read. -/
structure ExternalDetails where
  name : Option String
  deriving Repr, DecidableEq

/-- Stands in for Python's `f"$\x7bamount:.2f\x7d"`; no claim reads the
message text. -/
def fmtAmount (q : ℚ) : String := toString q

/-- `transfer_money` (banking_app.py lines 489-519). -/
def transfer_money (bank : Bank) (user_id : String)
    (from_account_name to_account_name : Option String) (amount : ℚ)
    (to_external_details : Option ExternalDetails) : TransferResult × Bank :=
  if !truthyOptStr from_account_name ||
      (!truthyOptStr to_account_name && to_external_details.isNone) ||
      amount ≤ 0 then
    ({ status := "error", message := "Missing required transfer details." }, bank)
  else
    match findAccount bank user_id (from_account_name.getD "") with
    | none =>
        ({ status := "error",
           message := "Account " ++ sq ++ from_account_name.getD "" ++ sq ++
             " not found." }, bank)
    | some from_account =>
        if from_account.balance < amount then
          ({ status := "error", message := "Insufficient funds." }, bank)
        else if truthyOptStr to_account_name then
          match findAccount bank user_id (to_account_name.getD "") with
          | none =>
              ({ status := "error",
                 message := "Recipient account " ++ sq ++
                   to_account_name.getD "" ++ sq ++ " not found." }, bank)
          | some to_account =>
              let txn : TransactionRec :=
                { from_account_id := from_account.id,
                  to_account_id := some to_account.id, amount := amount,
                  txn_type := "transfer",
                  description := "Transfer to " ++ to_account_name.getD "",
                  category := "Transfer", status := "completed" }
              ({ status := "success",
                 message := "Successfully transferred $" ++ fmtAmount amount ++ "." },
               { accounts :=
                   updBalance (updBalance bank.accounts from_account.id (-amount))
                     to_account.id amount,
                 transactions := bank.transactions ++ [txn] })
        else
          let txn : TransactionRec :=
            { from_account_id := from_account.id, to_account_id := none,
              amount := amount, txn_type := "transfer",
              description := "Transfer to " ++
                orElseStr (to_external_details.bind ExternalDetails.name) "External",
              category := "Transfer", status := "completed" }
          ({ status := "success",
             message := "Successfully transferred $" ++ fmtAmount amount ++ "." },
           { accounts := updBalance bank.accounts from_account.id (-amount),
             transactions := bank.transactions ++ [txn] })

/-! ### Concrete fixtures for the scenario theorems -/

/-- A fresh, empty store. -/
def emptyDb : Database :=
  { chat_history := [], agent_traces := [], tool_usage := [], tool_defs := [],
    agent_defs := [], next_uuid := 0 }

/-- A human message event with the given id and content. -/
def mkHumanMsg (i c : String) : TraceMsg :=
  { cls := "HumanMessage", id := i, content := c, finish_reason := none,
    tool_calls := [], total_tokens := none, completion_tokens := none,
    prompt_tokens := none, model_name := none, name := "", tool_call_id := "",
    tool_output := PyVal.pstr "", status := "" }

/-- An AI message event with the given finish reason and tool-call requests. -/
def mkAiMsg (i c : String) (fr : Option String) (tcs : List ToolCallReqEntry) :
    TraceMsg :=
  { cls := "AIMessage", id := i, content := c, finish_reason := fr,
    tool_calls := tcs, total_tokens := none, completion_tokens := none,
    prompt_tokens := none, model_name := none, name := "", tool_call_id := "",
    tool_output := PyVal.pstr "", status := "" }

/-- A tool result event. -/
def mkToolMsg (i nm callid : String) (out : PyVal) (st : String) : TraceMsg :=
  { cls := "ToolMessage", id := i, content := "", finish_reason := none,
    tool_calls := [], total_tokens := none, completion_tokens := none,
    prompt_tokens := none, model_name := none, name := nm,
    tool_call_id := callid, tool_output := out, status := st }

/-! ## Theorems

General lemmas first, then one theorem per specification claim (with its
witness or counterexample). -/

theorem find?_append_of_none {α : Type} (p : α → Bool) (l1 l2 : List α)
    (h : l1.find? p = none) : (l1 ++ l2).find? p = l2.find? p := by
  induction l1 with
  | nil => simp
  | cons a t ih =>
      cases hpa : p a with
      | true => simp [List.find?_cons, hpa] at h
      | false =>
          simp only [List.find?_cons, hpa] at h
          simpa [List.find?_cons, hpa] using ih h

theorem gocTool_preserves (db : Database) (tn : String) (d s : Option String) :
    ((get_or_create_tool_definition db tn d s).2).chat_history = db.chat_history ∧
    ((get_or_create_tool_definition db tn d s).2).agent_traces = db.agent_traces ∧
    ((get_or_create_tool_definition db tn d s).2).tool_usage = db.tool_usage ∧
    ((get_or_create_tool_definition db tn d s).2).agent_defs = db.agent_defs := by
  unfold get_or_create_tool_definition
  split <;> exact ⟨rfl, rfl, rfl, rfl⟩

theorem gocAgent_preserves (db : Database) (an : String) (d c p : Option String) :
    ((get_or_create_agent_definition db an d c p).2).chat_history = db.chat_history ∧
    ((get_or_create_agent_definition db an d c p).2).agent_traces = db.agent_traces ∧
    ((get_or_create_agent_definition db an d c p).2).tool_usage = db.tool_usage ∧
    ((get_or_create_agent_definition db an d c p).2).tool_defs = db.tool_defs := by
  unfold get_or_create_agent_definition
  split <;> exact ⟨rfl, rfl, rfl, rfl⟩

theorem resolveAgentId_preserves (db : Database) (an : Option String) :
    ((resolveAgentId db an).2).chat_history = db.chat_history ∧
    ((resolveAgentId db an).2).agent_traces = db.agent_traces ∧
    ((resolveAgentId db an).2).tool_usage = db.tool_usage ∧
    ((resolveAgentId db an).2).tool_defs = db.tool_defs := by
  rcases an with _ | a
  · exact ⟨rfl, rfl, rfl, rfl⟩
  · simp only [resolveAgentId]
    by_cases h : a = "system"
    · rw [if_pos h]
      exact ⟨rfl, rfl, rfl, rfl⟩
    · rw [if_neg h]
      exact gocAgent_preserves db a none none none

/-- **C3.** Registry auto-registration is idempotent under sequential use:
two successive `get_or_create_tool_definition` (resp.
`get_or_create_agent_definition`) calls with the same name return the same
identity, leave exactly one definition record for that name, and — when no
record existed beforehand — create one from the supplied description/config
or the generic placeholder defaults. -/
theorem registry_auto_registration_idempotent
    (db : Database) (tn an : String) (tdesc tschema adesc acfg aprompt : Option String)
    (htool : (db.tool_defs.filter (fun t => t.name == tn)).length ≤ 1)
    (hagent : (db.agent_defs.filter (fun a => a.name == an)).length ≤ 1) :
    ((∃ i, (get_or_create_tool_definition db tn tdesc tschema).1 = some i ∧
        (get_or_create_tool_definition
          (get_or_create_tool_definition db tn tdesc tschema).2 tn tdesc tschema).1 =
          some i) ∧
      (((get_or_create_tool_definition
          (get_or_create_tool_definition db tn tdesc tschema).2 tn tdesc tschema).2
          ).tool_defs.filter (fun t => t.name == tn)).length = 1 ∧
      ((db.tool_defs.filter (fun t => t.name == tn)).length = 0 →
        ∃ t, ((get_or_create_tool_definition db tn tdesc tschema).2).tool_defs =
            db.tool_defs ++ [t] ∧
          t.name = tn ∧
          t.description = orElseStr tdesc ("Dynamically discovered tool: " ++ tn) ∧
          t.input_schema = orElseStr tschema defaultInputSchema)) ∧
    ((∃ i, (get_or_create_agent_definition db an adesc acfg aprompt).1 = some i ∧
        (get_or_create_agent_definition
          (get_or_create_agent_definition db an adesc acfg aprompt).2
          an adesc acfg aprompt).1 = some i) ∧
      (((get_or_create_agent_definition
          (get_or_create_agent_definition db an adesc acfg aprompt).2
          an adesc acfg aprompt).2).agent_defs.filter (fun a => a.name == an)).length
          = 1 ∧
      ((db.agent_defs.filter (fun a => a.name == an)).length = 0 →
        ∃ a, ((get_or_create_agent_definition db an adesc acfg aprompt).2).agent_defs =
            db.agent_defs ++ [a] ∧
          a.name = an ∧
          a.description = orElseStr adesc ("Dynamically discovered agent: " ++ an) ∧
          a.llm_config = orElseStr acfg defaultLlmConfig ∧
          a.prompt_template = orElseStr aprompt
            ("You are " ++ an ++ " agent in a multi-agent banking system."))) := by
  constructor
  · cases hfind : db.tool_defs.find? (fun t => t.name == tn) with
    | some ex =>
        have hmem := List.mem_of_find?_eq_some hfind
        have hp := List.find?_some hfind
        have hmemf : ex ∈ db.tool_defs.filter (fun t => t.name == tn) :=
          List.mem_filter.mpr ⟨hmem, hp⟩
        have hge : 1 ≤ (db.tool_defs.filter (fun t => t.name == tn)).length :=
          List.length_pos.mpr (List.ne_nil_of_mem hmemf)
        have h1 : get_or_create_tool_definition db tn tdesc tschema =
            (some ex.tool_id, db) := by
          unfold get_or_create_tool_definition
          rw [hfind]
        have hdb2 : (get_or_create_tool_definition db tn tdesc tschema).2 = db := by
          rw [h1]
        refine ⟨⟨ex.tool_id, ?_, ?_⟩, ?_, ?_⟩
        · rw [h1]
        · rw [hdb2, h1]
        · rw [hdb2, hdb2]
          exact Nat.le_antisymm htool hge
        · intro h0
          omega
    | none =>
        have hnil : db.tool_defs.filter (fun t => t.name == tn) = [] := by
          rw [List.filter_eq_nil_iff]
          intro a ha
          exact List.find?_eq_none.mp hfind a ha
        have hfind2 :
            (db.tool_defs ++
              [({ tool_id := "tooldef_" ++ toString db.next_uuid, name := tn,
                  description :=
                    orElseStr tdesc ("Dynamically discovered tool: " ++ tn),
                  input_schema := orElseStr tschema defaultInputSchema,
                  version := "1.0.0",
                  is_active := true } : ToolDefinitionRec)]).find?
              (fun t => t.name == tn) =
            some { tool_id := "tooldef_" ++ toString db.next_uuid, name := tn,
                   description :=
                     orElseStr tdesc ("Dynamically discovered tool: " ++ tn),
                   input_schema := orElseStr tschema defaultInputSchema,
                   version := "1.0.0", is_active := true } := by
          rw [find?_append_of_none _ _ _ hfind]
          simp [List.find?_cons]
        refine ⟨⟨"tooldef_" ++ toString db.next_uuid, ?_, ?_⟩, ?_, ?_⟩
        · simp [get_or_create_tool_definition, hfind]
        · simp [get_or_create_tool_definition, hfind, hfind2]
        · simp [get_or_create_tool_definition, hfind, hfind2,
            List.filter_append, hnil, List.filter_cons]
        · intro _
          refine ⟨{ tool_id := "tooldef_" ++ toString db.next_uuid, name := tn,
                    description :=
                      orElseStr tdesc ("Dynamically discovered tool: " ++ tn),
                    input_schema := orElseStr tschema defaultInputSchema,
                    version := "1.0.0", is_active := true }, ?_, rfl, rfl, rfl⟩
          simp [get_or_create_tool_definition, hfind]
  · cases hfind : db.agent_defs.find? (fun a => a.name == an) with
    | some ex =>
        have hmem := List.mem_of_find?_eq_some hfind
        have hp := List.find?_some hfind
        have hmemf : ex ∈ db.agent_defs.filter (fun a => a.name == an) :=
          List.mem_filter.mpr ⟨hmem, hp⟩
        have hge : 1 ≤ (db.agent_defs.filter (fun a => a.name == an)).length :=
          List.length_pos.mpr (List.ne_nil_of_mem hmemf)
        have h1 : get_or_create_agent_definition db an adesc acfg aprompt =
            (some ex.agent_id, db) := by
          unfold get_or_create_agent_definition
          rw [hfind]
        have hdb2 : (get_or_create_agent_definition db an adesc acfg aprompt).2 = db := by
          rw [h1]
        refine ⟨⟨ex.agent_id, ?_, ?_⟩, ?_, ?_⟩
        · rw [h1]
        · rw [hdb2, h1]
        · rw [hdb2, hdb2]
          exact Nat.le_antisymm hagent hge
        · intro h0
          omega
    | none =>
        have hnil : db.agent_defs.filter (fun a => a.name == an) = [] := by
          rw [List.filter_eq_nil_iff]
          intro a ha
          exact List.find?_eq_none.mp hfind a ha
        have hfind2 :
            (db.agent_defs ++
              [({ agent_id := "agent_" ++ toString db.next_uuid, name := an,
                  description :=
                    orElseStr adesc ("Dynamically discovered agent: " ++ an),
                  llm_config := orElseStr acfg defaultLlmConfig,
                  prompt_template := orElseStr aprompt
                    ("You are " ++ an ++
                      " agent in a multi-agent banking system.") } :
                  AgentDefinitionRec)]).find?
              (fun a => a.name == an) =
            some { agent_id := "agent_" ++ toString db.next_uuid, name := an,
                   description :=
                     orElseStr adesc ("Dynamically discovered agent: " ++ an),
                   llm_config := orElseStr acfg defaultLlmConfig,
                   prompt_template := orElseStr aprompt
                     ("You are " ++ an ++
                       " agent in a multi-agent banking system.") } := by
          rw [find?_append_of_none _ _ _ hfind]
          simp [List.find?_cons]
        refine ⟨⟨"agent_" ++ toString db.next_uuid, ?_, ?_⟩, ?_, ?_⟩
        · simp [get_or_create_agent_definition, hfind]
        · simp [get_or_create_agent_definition, hfind, hfind2]
        · simp [get_or_create_agent_definition, hfind, hfind2,
            List.filter_append, hnil, List.filter_cons]
        · intro _
          refine ⟨{ agent_id := "agent_" ++ toString db.next_uuid, name := an,
                    description :=
                      orElseStr adesc ("Dynamically discovered agent: " ++ an),
                    llm_config := orElseStr acfg defaultLlmConfig,
                    prompt_template := orElseStr aprompt
                      ("You are " ++ an ++
                        " agent in a multi-agent banking system.") },
            ?_, rfl, rfl, rfl, rfl⟩
          simp [get_or_create_agent_definition, hfind]

/-- Witness for C3 at a concrete input: auto-registering `brand_new_tool`
twice on a fresh store yields the same id both times and a single record. -/
theorem registry_auto_registration_idempotent_witness :
    (∃ i, (get_or_create_tool_definition emptyDb "brand_new_tool" none none).1 =
        some i ∧
      (get_or_create_tool_definition
        (get_or_create_tool_definition emptyDb "brand_new_tool" none none).2
        "brand_new_tool" none none).1 = some i) ∧
    (((get_or_create_tool_definition
        (get_or_create_tool_definition emptyDb "brand_new_tool" none none).2
        "brand_new_tool" none none).2).tool_defs.filter
        (fun t => t.name == "brand_new_tool")).length = 1 :=
  ⟨(registry_auto_registration_idempotent emptyDb "brand_new_tool" "support_agent"
      none none none none none (by decide) (by decide)).1.1,
    (registry_auto_registration_idempotent emptyDb "brand_new_tool" "support_agent"
      none none none none none (by decide) (by decide)).1.2.1⟩

theorem pyTruthyStr_append_left (a b : String) (h : pyTruthyStr a = true) :
    pyTruthyStr (a ++ b) = true := by
  cases a with
  | mk la =>
      cases b with
      | mk lb =>
          cases la with
          | nil => simp [pyTruthyStr] at h
          | cons c t =>
              show pyTruthyStr ⟨(c :: t) ++ lb⟩ = true
              simp [pyTruthyStr]

theorem gocTool_id_truthy (db : Database) (tn : String) (d s : Option String)
    (hids : ∀ t ∈ db.tool_defs, pyTruthyStr t.tool_id = true) :
    ∃ i, (get_or_create_tool_definition db tn d s).1 = some i ∧
      pyTruthyStr i = true := by
  unfold get_or_create_tool_definition
  cases hfind : db.tool_defs.find? (fun t => t.name == tn) with
  | some ex => exact ⟨ex.tool_id, rfl, hids ex (List.mem_of_find?_eq_some hfind)⟩
  | none =>
      exact ⟨"tooldef_" ++ toString db.next_uuid, rfl,
        pyTruthyStr_append_left "tooldef_" _ (by decide)⟩

/-- **C4 counterexample.** The claim says a lookup-missed insert that hits the
unique-name violation "degrades to a lookup and still returns the existing
record's identity".  With the existing record `tooldef_7` for
`brand_new_tool` committed by a concurrent winner, the loser (stale lookup
`none`, conflicting insert) returns `None`, not `some "tooldef_7"`: the
`except` branch only rolls back and returns `None`. -/
theorem auto_registration_race_counterexample :
    (get_or_create_tool_definition_raced
      { chat_history := [], agent_traces := [], tool_usage := [],
        tool_defs := [{ tool_id := "tooldef_7", name := "brand_new_tool",
                        description := "d", input_schema := "s",
                        version := "1.0.0", is_active := true }],
        agent_defs := [], next_uuid := 8 }
      "brand_new_tool" none none none true).1 = none ∧
    ({ chat_history := [], agent_traces := [], tool_usage := [],
       tool_defs := [{ tool_id := "tooldef_7", name := "brand_new_tool",
                       description := "d", input_schema := "s",
                       version := "1.0.0", is_active := true }],
       agent_defs := [], next_uuid := 8 } : Database).tool_defs.map
        ToolDefinitionRec.tool_id = ["tooldef_7"] :=
  ⟨rfl, rfl⟩

/-- **C4 (amended).** When the insert performed by
`get_or_create_tool_definition` / `get_or_create_agent_definition` fails with
a uniqueness violation (another reconciliation created the record first), the
exception is caught, the session is rolled back, and `None` is returned — the
operation does not degrade to a lookup and does not return the existing
record's identity; no exception escapes to the caller, and `log_tool_usage`
responds to an unresolvable tool identity by skipping the ToolUsage insert
(with a warning) rather than failing the turn. -/
theorem auto_registration_race_degrades_to_none
    (db : Database) (tn an sid tid ag : String) (d s lc pt : Option String)
    (info : ToolCallInfo) (h1 : info.tool_id = none) (h2 : info.tool_name = none) :
    get_or_create_tool_definition_raced db tn d s none true = (none, db) ∧
    get_or_create_agent_definition_raced db an d lc pt none true = (none, db) ∧
    log_tool_usage sid db info tid ag = db := by
  refine ⟨rfl, rfl, ?_⟩
  simp [log_tool_usage, resolveUsageToolId, h1, h2, truthyOptStr]

/-- Witness for the amended C4 at concrete inputs. -/
theorem auto_registration_race_degrades_to_none_witness :
    get_or_create_tool_definition_raced emptyDb "brand_new_tool" none none none
      true = (none, emptyDb) ∧
    get_or_create_agent_definition_raced emptyDb "new_agent" none none none none
      true = (none, emptyDb) ∧
    log_tool_usage "session_1" emptyDb
      { tool_call_id := some "abc", tool_id := none, tool_name := none,
        tool_input := none, total_tokens := none, tool_output := none,
        status := none } "trace_1" "account_agent" = emptyDb :=
  auto_registration_race_degrades_to_none emptyDb "brand_new_tool" "new_agent"
    "session_1" "trace_1" "account_agent" none none none none
    { tool_call_id := some "abc", tool_id := none, tool_name := none,
      tool_input := none, total_tokens := none, tool_output := none,
      status := none } rfl rfl

/-- **C2.** Routing is a deterministic pure function of the most recent human
message: if the lowercased last message contains at least one account
keyword, the coordinator selects `account_agent` with task type
`account_management`; if it contains none of them, it selects
`support_agent`; and identical inputs always produce identical selections. -/
theorem coordinator_routing_deterministic (s : BankingAgentState) :
    ((∃ k ∈ account_keywords,
        strContainsSub (lowerStr (lastMessageContent s)) k = true) →
      (coordinator_node s).current_agent = "account_agent" ∧
      (coordinator_node s).task_type = "account_management") ∧
    ((∀ k ∈ account_keywords,
        strContainsSub (lowerStr (lastMessageContent s)) k = false) →
      (coordinator_node s).current_agent = "support_agent" ∧
      (coordinator_node s).task_type = "customer_support") ∧
    (∀ s2 : BankingAgentState, s = s2 → coordinator_node s = coordinator_node s2) := by
  refine ⟨?_, ?_, ?_⟩
  · intro h
    have hany : account_keywords.any
        (fun keyword => strContainsSub (lowerStr (lastMessageContent s)) keyword) = true := by
      rw [List.any_eq_true]
      obtain ⟨k, hk, hc⟩ := h
      exact ⟨k, hk, hc⟩
    simp only [coordinator_node, hany, if_true]
    exact ⟨trivial, trivial⟩
  · intro h
    have hany : account_keywords.any
        (fun keyword => strContainsSub (lowerStr (lastMessageContent s)) keyword) = false := by
      rw [List.any_eq_false]
      intro k hk
      simp [h k hk]
    simp only [coordinator_node, hany, Bool.false_eq_true, if_false]
    exact ⟨trivial, trivial⟩
  · intro s2 hs
    rw [hs]

/-- Witness for C2 at concrete inputs: a message containing the keyword
`balance` routes to the account agent, and a keyword-free message routes to
the support agent. -/
theorem coordinator_routing_deterministic_witness :
    ((coordinator_node
        { messages := [⟨"What is my balance today"⟩], current_agent := "",
          task_type := "", user_id := "user_1", session_id := "s1",
          final_result := "" }).current_agent = "account_agent" ∧
      (coordinator_node
        { messages := [⟨"What is my balance today"⟩], current_agent := "",
          task_type := "", user_id := "user_1", session_id := "s1",
          final_result := "" }).task_type = "account_management") ∧
    ((coordinator_node
        { messages := [⟨"How do I reset my PIN"⟩], current_agent := "",
          task_type := "", user_id := "user_1", session_id := "s1",
          final_result := "" }).current_agent = "support_agent" ∧
      (coordinator_node
        { messages := [⟨"How do I reset my PIN"⟩], current_agent := "",
          task_type := "", user_id := "user_1", session_id := "s1",
          final_result := "" }).task_type = "customer_support") :=
  ⟨(coordinator_routing_deterministic _).1
      ⟨"balance", by decide, by decide⟩,
    (coordinator_routing_deterministic _).2.1 (by decide)⟩

theorem upsert_update_facts (l : List ToolUsageRow) (cid : Option String)
    (S : String) (upd : ToolUsageRow → ToolUsageRow)
    (hupd_id : ∀ u, (upd u).tool_call_id = u.tool_call_id)
    (hupd_st : ∀ u, (upd u).status = S)
    (u0 : ToolUsageRow) (hm : u0 ∈ l) (hp : u0.tool_call_id = cid) :
    (∃ u ∈ l.map (fun u => if u.tool_call_id = cid then upd u else u),
        u.tool_call_id = cid) ∧
    (∀ u ∈ l.map (fun u => if u.tool_call_id = cid then upd u else u),
        u.tool_call_id = cid → u.status = S) := by
  constructor
  · refine ⟨(fun u => if u.tool_call_id = cid then upd u else u) u0,
      List.mem_map_of_mem _ hm, ?_⟩
    show (if u0.tool_call_id = cid then upd u0 else u0).tool_call_id = cid
    rw [if_pos hp, hupd_id u0, hp]
  · intro u hu hid
    obtain ⟨v, hv, rfl⟩ := List.mem_map.mp hu
    by_cases hpv : v.tool_call_id = cid
    · rw [if_pos hpv]
      exact hupd_st v
    · rw [if_neg hpv] at hid
      exact absurd hid hpv

theorem upsert_insert_facts (l : List ToolUsageRow) (cid : Option String)
    (S : String) (row : ToolUsageRow)
    (hnone : ∀ u ∈ l, ¬ u.tool_call_id = cid)
    (hrow_id : row.tool_call_id = cid) (hrow_st : row.status = S) :
    (∃ u ∈ l ++ [row], u.tool_call_id = cid) ∧
    (∀ u ∈ l ++ [row], u.tool_call_id = cid → u.status = S) := by
  constructor
  · exact ⟨row, List.mem_append_right _ (List.mem_singleton_self row), hrow_id⟩
  · intro u hu hid
    rcases List.mem_append.mp hu with h | h
    · exact absurd hid (hnone u h)
    · rw [List.mem_singleton.mp h]
      exact hrow_st

theorem resolveUsageToolId_spec (db : Database) (info : ToolCallInfo) (ag : String)
    (hids : ∀ t ∈ db.tool_defs, pyTruthyStr t.tool_id = true)
    (hres : truthyOptStr info.tool_id = true ∨ info.tool_name.isSome = true) :
    ∃ info2 db1, resolveUsageToolId db info ag = (info2, db1) ∧
      info2.tool_call_id = info.tool_call_id ∧
      info2.tool_name = info.tool_name ∧
      info2.tool_input = info.tool_input ∧
      info2.total_tokens = info.total_tokens ∧
      info2.tool_output = info.tool_output ∧
      truthyOptStr info2.tool_id = true ∧
      db1.tool_usage = db.tool_usage := by
  by_cases ht : truthyOptStr info.tool_id = true
  · exact ⟨info, db, by unfold resolveUsageToolId; rw [if_pos ht], rfl, rfl, rfl,
      rfl, rfl, ht, rfl⟩
  · have hn : info.tool_name.isSome = true := hres.resolve_left ht
    obtain ⟨tn, htn⟩ := Option.isSome_iff_exists.mp hn
    obtain ⟨j, hj1, hj2⟩ := gocTool_id_truthy db tn
      (some ("Tool used by " ++ ag)) none hids
    refine ⟨{ info with tool_id := (get_or_create_tool_definition db tn
        (some ("Tool used by " ++ ag)) none).1 },
      (get_or_create_tool_definition db tn (some ("Tool used by " ++ ag)) none).2,
      ?_, rfl, rfl, rfl, rfl, rfl, ?_, ?_⟩
    · unfold resolveUsageToolId
      rw [if_neg ht, htn]
    · show truthyOptStr (get_or_create_tool_definition db tn
        (some ("Tool used by " ++ ag)) none).1 = true
      rw [hj1]
      exact hj2
    · exact (gocTool_preserves db tn (some ("Tool used by " ++ ag)) none).2.2.1

/-- **C6.** ToolUsage health status is the substring heuristic and nothing
else: whenever `log_tool_usage` persists (inserts or updates) a row for the
merged context's `tool_call_id`, every ToolUsage row carrying that call id
ends with status `"Errored"` iff the lowercased Python serialization of the
tool output contains the substring `"error"`, and `"Healthy"` otherwise.
(`hcid` scopes out the store-generated primary-key default for a missing
call id; `hids` is the store invariant that registered tool ids are
non-empty uuid strings; `hres` — a resolvable tool id or at least a tool
name — is what makes the function persist rather than skip.) -/
theorem log_tool_usage_status_heuristic
    (sid tid ag : String) (db : Database) (info : ToolCallInfo)
    (hcid : info.tool_call_id.isSome = true)
    (hids : ∀ t ∈ db.tool_defs, pyTruthyStr t.tool_id = true)
    (hres : truthyOptStr info.tool_id = true ∨ info.tool_name.isSome = true) :
    (∃ u ∈ (log_tool_usage sid db info tid ag).tool_usage,
        u.tool_call_id = info.tool_call_id) ∧
    (∀ u ∈ (log_tool_usage sid db info tid ag).tool_usage,
        u.tool_call_id = info.tool_call_id →
          u.status = toolStatusOf info.tool_output) ∧
    (toolStatusOf info.tool_output = "Errored" ↔
      strContainsSub (lowerStr (pyStrOfOpt info.tool_output)) "error" = true) := by
  have hstatus : toolStatusOf info.tool_output = "Errored" ↔
      strContainsSub (lowerStr (pyStrOfOpt info.tool_output)) "error" = true := by
    unfold toolStatusOf
    by_cases h : strContainsSub (lowerStr (pyStrOfOpt info.tool_output)) "error"
      = true
    · rw [if_pos h]
      exact ⟨fun _ => h, fun _ => rfl⟩
    · rw [if_neg h]
      exact ⟨fun hh => absurd hh (by decide), fun hc => absurd hc h⟩
  obtain ⟨info2, db1, heq, hcc, hnm, hin, htk, hout, htr, hus⟩ :=
    resolveUsageToolId_spec db info ag hids hres
  have hlog : log_tool_usage sid db info tid ag =
      match db.tool_usage.find? (fun u => u.tool_call_id = info.tool_call_id) with
      | some _ =>
          { db1 with tool_usage := db1.tool_usage.map (fun u =>
              if u.tool_call_id = info.tool_call_id then
                { u with
                  session_id := sid, trace_id := tid, tool_id := info2.tool_id,
                  tool_name := info.tool_name, tool_input := info.tool_input,
                  tool_output := info.tool_output,
                  tool_message := toolMsgOf info.tool_output,
                  status := toolStatusOf info.tool_output,
                  tokens_used := info.total_tokens, executing_agent := ag }
              else u) }
      | none =>
          { db1 with tool_usage := db1.tool_usage ++ [{
              tool_call_id := info.tool_call_id, session_id := sid,
              trace_id := tid, tool_id := info2.tool_id,
              tool_name := info.tool_name, tool_input := info.tool_input,
              tool_output := info.tool_output,
              tool_message := toolMsgOf info.tool_output,
              status := toolStatusOf info.tool_output,
              tokens_used := info.total_tokens, executing_agent := ag }] } := by
    unfold log_tool_usage
    rw [heq]
    dsimp only
    rw [if_neg (show ¬(truthyOptStr info2.tool_id = false) by simp [htr])]
  rw [hlog]
  cases hex : db.tool_usage.find?
      (fun u => u.tool_call_id = info.tool_call_id) with
  | some u0 =>
      have hp0 := List.find?_some hex
      have hfacts := upsert_update_facts db.tool_usage info.tool_call_id
        (toolStatusOf info.tool_output)
        (fun u => { u with
          session_id := sid, trace_id := tid, tool_id := info2.tool_id,
          tool_name := info.tool_name, tool_input := info.tool_input,
          tool_output := info.tool_output,
          tool_message := toolMsgOf info.tool_output,
          status := toolStatusOf info.tool_output,
          tokens_used := info.total_tokens, executing_agent := ag })
        (fun u => rfl) (fun u => rfl) u0 (List.mem_of_find?_eq_some hex)
        (of_decide_eq_true hp0)
      refine ⟨?_, ?_, hstatus⟩ <;> rw [show ({ db1 with
        tool_usage := db1.tool_usage.map (fun u =>
          if u.tool_call_id = info.tool_call_id then
            { u with
              session_id := sid, trace_id := tid, tool_id := info2.tool_id,
              tool_name := info.tool_name, tool_input := info.tool_input,
              tool_output := info.tool_output,
              tool_message := toolMsgOf info.tool_output,
              status := toolStatusOf info.tool_output,
              tokens_used := info.total_tokens, executing_agent := ag }
          else u) } : Database).tool_usage = db.tool_usage.map (fun u =>
          if u.tool_call_id = info.tool_call_id then
            { u with
              session_id := sid, trace_id := tid, tool_id := info2.tool_id,
              tool_name := info.tool_name, tool_input := info.tool_input,
              tool_output := info.tool_output,
              tool_message := toolMsgOf info.tool_output,
              status := toolStatusOf info.tool_output,
              tokens_used := info.total_tokens, executing_agent := ag }
          else u) from by rw [hus]]
      · exact hfacts.1
      · exact hfacts.2
  | none =>
      have hnone : ∀ u ∈ db.tool_usage, ¬ u.tool_call_id = info.tool_call_id := by
        intro u hu hid
        exact absurd (decide_eq_true hid) (List.find?_eq_none.mp hex u hu)
      have hfacts := upsert_insert_facts db.tool_usage info.tool_call_id
        (toolStatusOf info.tool_output)
        ({ tool_call_id := info.tool_call_id, session_id := sid,
           trace_id := tid, tool_id := info2.tool_id,
           tool_name := info.tool_name, tool_input := info.tool_input,
           tool_output := info.tool_output,
           tool_message := toolMsgOf info.tool_output,
           status := toolStatusOf info.tool_output,
           tokens_used := info.total_tokens, executing_agent := ag })
        hnone rfl rfl
      refine ⟨?_, ?_, hstatus⟩ <;> rw [show ({ db1 with
        tool_usage := db1.tool_usage ++ [{
          tool_call_id := info.tool_call_id, session_id := sid,
          trace_id := tid, tool_id := info2.tool_id,
          tool_name := info.tool_name, tool_input := info.tool_input,
          tool_output := info.tool_output,
          tool_message := toolMsgOf info.tool_output,
          status := toolStatusOf info.tool_output,
          tokens_used := info.total_tokens,
          executing_agent := ag }] } : Database).tool_usage =
          db.tool_usage ++ [{
            tool_call_id := info.tool_call_id, session_id := sid,
            trace_id := tid, tool_id := info2.tool_id,
            tool_name := info.tool_name, tool_input := info.tool_input,
            tool_output := info.tool_output,
            tool_message := toolMsgOf info.tool_output,
            status := toolStatusOf info.tool_output,
            tokens_used := info.total_tokens,
            executing_agent := ag }] from by rw [hus]]
      · exact hfacts.1
      · exact hfacts.2

/-- Witness for C6 at the spec scenario: a merged context whose output is the
payload `\x7b"status": "error", "message": "insufficient funds"\x7d` is
persisted with status `"Errored"`. -/
theorem log_tool_usage_status_heuristic_witness :
    ((∃ u ∈ (log_tool_usage "s1" emptyDb
        { tool_call_id := some "abc", tool_id := some "tooldef_1",
          tool_name := some "transfer_money_tool", tool_input := none,
          total_tokens := none,
          tool_output := some (PyVal.pdict
            [("status", "error"), ("message", "insufficient funds")]),
          status := none } "t1" "account_agent").tool_usage,
        u.tool_call_id = some "abc") ∧
      (∀ u ∈ (log_tool_usage "s1" emptyDb
        { tool_call_id := some "abc", tool_id := some "tooldef_1",
          tool_name := some "transfer_money_tool", tool_input := none,
          total_tokens := none,
          tool_output := some (PyVal.pdict
            [("status", "error"), ("message", "insufficient funds")]),
          status := none } "t1" "account_agent").tool_usage,
        u.tool_call_id = some "abc" →
          u.status = toolStatusOf (some (PyVal.pdict
            [("status", "error"), ("message", "insufficient funds")])))) ∧
    toolStatusOf (some (PyVal.pdict
      [("status", "error"), ("message", "insufficient funds")])) = "Errored" :=
  ⟨⟨(log_tool_usage_status_heuristic "s1" "t1" "account_agent" emptyDb
      { tool_call_id := some "abc", tool_id := some "tooldef_1",
        tool_name := some "transfer_money_tool", tool_input := none,
        total_tokens := none,
        tool_output := some (PyVal.pdict
          [("status", "error"), ("message", "insufficient funds")]),
        status := none } (by decide) (by decide) (Or.inl (by decide))).1,
    (log_tool_usage_status_heuristic "s1" "t1" "account_agent" emptyDb
      { tool_call_id := some "abc", tool_id := some "tooldef_1",
        tool_name := some "transfer_money_tool", tool_input := none,
        total_tokens := none,
        tool_output := some (PyVal.pdict
          [("status", "error"), ("message", "insufficient funds")]),
        status := none } (by decide) (by decide) (Or.inl (by decide))).2.1⟩,
   by decide⟩

/-- **C9.** The ad-hoc database query tool's read path is read-only by
construction: for every `query_database` call with action `"read"`, a query
that does not start with SELECT (after stripping and upper-casing), or whose
`re.split` token set contains one of DROP, DELETE, INSERT, UPDATE, ALTER,
CREATE, TRUNCATE, is answered with an error-status result and never executed
against the database; a query that passes the guard and carries no
TOP/LIMIT substring is executed with the row limit clamped into `[1, 1000]`
(the parameter defaults to `queryDatabaseDefaultLimit = 100`) injected as a
TOP clause. -/
theorem query_database_read_guard (q : String) (tn : Option String)
    (sch : String) (lim : Int) :
    (strStartsWith (upperStr (trimStr q)) "SELECT" = false →
      ∃ msg, query_database "read" tn sch (some q) lim =
        QueryOutcome.errorResult msg) ∧
    ((∃ kw ∈ dangerous_keywords,
        (splitStr pySepChar (upperStr (trimStr q))).contains kw = true) →
      ∃ msg, query_database "read" tn sch (some q) lim =
        QueryOutcome.errorResult msg) ∧
    (strStartsWith (upperStr (trimStr q)) "SELECT" = true →
      (∀ kw ∈ dangerous_keywords,
        (splitStr pySepChar (upperStr (trimStr q))).contains kw = false) →
      strContainsSub (upperStr (trimStr q)) "TOP" = false →
      strContainsSub (upperStr (trimStr q)) "LIMIT" = false →
      query_database "read" tn sch (some q) lim =
        QueryOutcome.execute (strTake (trimStr q) 6 ++ " TOP " ++
          toString (min (max 1 lim) 1000) ++ strDrop (trimStr q) 6) ∧
      1 ≤ min (max 1 lim) 1000 ∧ min (max 1 lim) 1000 ≤ 1000) ∧
    queryDatabaseDefaultLimit = 100 := by
  refine ⟨?_, ?_, ?_, rfl⟩
  · intro h
    cases hq : truthyOptStr (some q) with
    | false =>
        exact ⟨"query required for read", by simp [query_database, hq]⟩
    | true =>
        exact ⟨"Only SELECT queries are allowed.",
          by simp [query_database, read_data, hq, h]⟩
  · rintro ⟨kw, hkwmem, hkw⟩
    cases hq : truthyOptStr (some q) with
    | false =>
        exact ⟨"query required for read", by simp [query_database, hq]⟩
    | true =>
        cases hsel : strStartsWith (upperStr (trimStr q)) "SELECT" with
        | false =>
            exact ⟨"Only SELECT queries are allowed.",
              by simp [query_database, read_data, hq, hsel]⟩
        | true =>
            cases hfind : dangerous_keywords.find?
                (fun kw => (splitStr pySepChar (upperStr (trimStr q))).contains kw)
                with
            | none =>
                exact absurd hkw (List.find?_eq_none.mp hfind kw hkwmem)
            | some kw2 =>
                refine ⟨"Query contains prohibited keyword: " ++ kw2, ?_⟩
                have hfind2 := hfind
                simp only [] at hfind2
                simp at hfind2
                simp [query_database, read_data, hq, hsel, hfind2]
  · intro h1 h2 h3 h4
    cases hq : truthyOptStr (some q) with
    | false =>
        exfalso
        cases q with
        | mk d =>
            have hd : d = [] := by
              simpa [truthyOptStr, pyTruthyStr, List.isEmpty_iff] using hq
            subst hd
            exact absurd h1 (by decide)
    | true =>
        cases hfind : dangerous_keywords.find?
            (fun kw => (splitStr pySepChar (upperStr (trimStr q))).contains kw)
            with
        | some kw =>
            have hmem := List.mem_of_find?_eq_some hfind
            have hkw : (splitStr pySepChar (upperStr (trimStr q))).contains kw
                = true := List.find?_some hfind
            rw [h2 kw hmem] at hkw
            exact Bool.noConfusion hkw
        | none =>
            have hfind2 := hfind
            simp at hfind2
            have hfind3 : List.find?
                (fun kw => decide (kw ∈ splitStr pySepChar (upperStr (trimStr q))))
                dangerous_keywords = none := by
              rw [List.find?_eq_none]
              intro x hx
              simp [hfind2 x hx]
            refine ⟨by simp [query_database, read_data, hq, h1, hfind3, h3, h4],
              ?_, ?_⟩ <;> omega

/-- Witness for C9 at concrete inputs: a non-SELECT query and a query
containing DROP are refused; a passing query with an out-of-range limit gets
TOP 1000 injected. -/
theorem query_database_read_guard_witness :
    (∃ msg, query_database "read" none "dbo" (some "DELETE FROM accounts") 100 =
      QueryOutcome.errorResult msg) ∧
    (∃ msg, query_database "read" none "dbo"
      (some "SELECT 1; DROP TABLE accounts") 100 =
      QueryOutcome.errorResult msg) ∧
    (query_database "read" none "dbo" (some "select id from accounts") 5000 =
      QueryOutcome.execute (strTake (trimStr "select id from accounts") 6 ++
        " TOP " ++ toString (min (max 1 (5000 : Int)) 1000) ++
        strDrop (trimStr "select id from accounts") 6) ∧
      1 ≤ min (max 1 (5000 : Int)) 1000 ∧
      min (max 1 (5000 : Int)) 1000 ≤ 1000) :=
  ⟨(query_database_read_guard "DELETE FROM accounts" none "dbo" 100).1
      (by decide),
    (query_database_read_guard "SELECT 1; DROP TABLE accounts" none "dbo" 100).2.1
      ⟨"DROP", by decide, by decide⟩,
    (query_database_read_guard "select id from accounts" none "dbo" 5000).2.2.1
      (by decide) (by decide) (by decide) (by decide)⟩

theorem findAccount_updBalance (l : List Account) (i : Nat) (d : ℚ)
    (uid nm : String) :
    (updBalance l i d).find? (fun a => a.user_id == uid && a.name == nm) =
      (l.find? (fun a => a.user_id == uid && a.name == nm)).map
        (fun a => if a.id = i then { a with balance := a.balance + d } else a) := by
  induction l with
  | nil => rfl
  | cons a t ih =>
      have hpg : (((if a.id = i then { a with balance := a.balance + d }
            else a : Account)).user_id == uid &&
          ((if a.id = i then { a with balance := a.balance + d }
            else a : Account)).name == nm) = (a.user_id == uid && a.name == nm) := by
        by_cases h : a.id = i <;> simp [h]
      show ((if a.id = i then { a with balance := a.balance + d }
          else a) :: updBalance t i d).find?
          (fun x => x.user_id == uid && x.name == nm) = _
      cases hpa : (a.user_id == uid && a.name == nm) with
      | true =>
          rw [@List.find?_cons_of_pos Account
              (fun x => x.user_id == uid && x.name == nm) _ (updBalance t i d)
              (by simp only [hpg, hpa]),
            @List.find?_cons_of_pos Account
              (fun x => x.user_id == uid && x.name == nm) a t hpa]
          rfl
      | false =>
          rw [@List.find?_cons_of_neg Account
              (fun x => x.user_id == uid && x.name == nm) _ (updBalance t i d)
              (by simp [hpg, hpa]),
            @List.find?_cons_of_neg Account
              (fun x => x.user_id == uid && x.name == nm) a t (by simp [hpa])]
          exact ih

/-- **C10.** Internal money transfers conserve and never overdraw balances:
for a transfer between two distinct named accounts of the same user, every
degenerate input (non-positive amount, missing source, missing destination,
or source balance below the amount) produces an error-status result and
leaves the bank unchanged; and a success status means the source balance
decreased by exactly the amount, the destination balance increased by
exactly the amount (their sum unchanged), and exactly one completed
`transfer` transaction record was appended.  (`hids` is the primary-key
invariant that account ids are unique.) -/
theorem transfer_money_conserves
    (bank : Bank) (uid f t : String) (amount : ℚ)
    (hids : (bank.accounts.map Account.id).Nodup)
    (hf : pyTruthyStr f = true) (ht : pyTruthyStr t = true) (hft : f ≠ t) :
    ((amount ≤ 0 ∨ findAccount bank uid f = none ∨
        findAccount bank uid t = none ∨
        (∃ a, findAccount bank uid f = some a ∧ a.balance < amount)) →
      ((transfer_money bank uid (some f) (some t) amount none).1.status =
          "error" ∧
        (transfer_money bank uid (some f) (some t) amount none).2 = bank)) ∧
    ((transfer_money bank uid (some f) (some t) amount none).1.status =
        "success" →
      ∃ fa ta, findAccount bank uid f = some fa ∧
        findAccount bank uid t = some ta ∧
        (∃ fa2 ta2,
          findAccount (transfer_money bank uid (some f) (some t) amount none).2
            uid f = some fa2 ∧
          findAccount (transfer_money bank uid (some f) (some t) amount none).2
            uid t = some ta2 ∧
          fa2.balance = fa.balance - amount ∧
          ta2.balance = ta.balance + amount ∧
          fa2.balance + ta2.balance = fa.balance + ta.balance) ∧
        (transfer_money bank uid (some f) (some t) amount none).2.transactions =
          bank.transactions ++
            [{ from_account_id := fa.id, to_account_id := some ta.id,
               amount := amount, txn_type := "transfer",
               description := "Transfer to " ++ t, category := "Transfer",
               status := "completed" }]) := by
  by_cases ha : amount ≤ 0
  · have heq : transfer_money bank uid (some f) (some t) amount none =
        ({ status := "error", message := "Missing required transfer details." },
          bank) := by
      unfold transfer_money
      rw [if_pos (by simp [truthyOptStr, hf, ht, ha])]
    rw [heq]
    exact ⟨fun _ => ⟨rfl, rfl⟩, fun hs => by simp at hs⟩
  · have hcond : ¬((!truthyOptStr (some f) ||
        (!truthyOptStr (some t) && (none : Option ExternalDetails).isNone) ||
        decide (amount ≤ 0)) = true) := by
      simp [truthyOptStr, hf, ht, ha]
    cases hfindf : findAccount bank uid f with
    | none =>
        have heq : transfer_money bank uid (some f) (some t) amount none =
            ({ status := "error",
               message := "Account " ++ sq ++ f ++ sq ++ " not found." },
              bank) := by
          unfold transfer_money
          rw [if_neg hcond]
          rw [show findAccount bank uid ((some f).getD "") = none from hfindf]
          rfl
        rw [heq]
        exact ⟨fun _ => ⟨rfl, rfl⟩, fun hs => by simp at hs⟩
    | some fa =>
        by_cases hbal : fa.balance < amount
        · have heq : transfer_money bank uid (some f) (some t) amount none =
              ({ status := "error", message := "Insufficient funds." }, bank) := by
            unfold transfer_money
            rw [if_neg hcond]
            rw [show findAccount bank uid ((some f).getD "") = some fa from hfindf]
            dsimp only
            rw [if_pos hbal]
          rw [heq]
          exact ⟨fun _ => ⟨rfl, rfl⟩, fun hs => by simp at hs⟩
        · cases hfindt : findAccount bank uid t with
          | none =>
              have heq : transfer_money bank uid (some f) (some t) amount none =
                  ({ status := "error",
                     message := "Recipient account " ++ sq ++ t ++ sq ++
                       " not found." }, bank) := by
                unfold transfer_money
                rw [if_neg hcond]
                rw [show findAccount bank uid ((some f).getD "") = some fa from
                  hfindf]
                dsimp only
                rw [if_neg hbal, if_pos (show truthyOptStr (some t) = true from ht)]
                rw [show findAccount bank uid ((some t).getD "") = none from
                  hfindt]
                rfl
              rw [heq]
              exact ⟨fun _ => ⟨rfl, rfl⟩, fun hs => by simp at hs⟩
          | some ta =>
              have heq : transfer_money bank uid (some f) (some t) amount none =
                  ({ status := "success",
                     message := "Successfully transferred $" ++
                       fmtAmount amount ++ "." },
                    { accounts :=
                        updBalance (updBalance bank.accounts fa.id (-amount))
                          ta.id amount,
                      transactions := bank.transactions ++
                        [{ from_account_id := fa.id,
                           to_account_id := some ta.id, amount := amount,
                           txn_type := "transfer",
                           description := "Transfer to " ++ t,
                           category := "Transfer",
                           status := "completed" }] }) := by
                unfold transfer_money
                rw [if_neg hcond]
                rw [show findAccount bank uid ((some f).getD "") = some fa from
                  hfindf]
                dsimp only
                rw [if_neg hbal, if_pos (show truthyOptStr (some t) = true from ht)]
                rw [show findAccount bank uid ((some t).getD "") = some ta from
                  hfindt]
                rfl
              -- facts about the two rows
              have hfmem := List.mem_of_find?_eq_some hfindf
              have htmem := List.mem_of_find?_eq_some hfindt
              have hfp := List.find?_some hfindf
              have htp := List.find?_some hfindt
              have hfname : fa.name = f := by
                have := (Bool.and_eq_true _ _).mp hfp
                exact eq_of_beq this.2
              have htname : ta.name = t := by
                have := (Bool.and_eq_true _ _).mp htp
                exact eq_of_beq this.2
              have hne : fa.id ≠ ta.id := by
                intro hid
                have : fa = ta :=
                  List.inj_on_of_nodup_map hids hfmem htmem hid
                exact hft (hfname ▸ htname ▸ congrArg Account.name this)
              rw [heq]
              refine ⟨?_, ?_⟩
              · rintro (h | h | h | ⟨a, haeq, halt⟩)
                · exact absurd h ha
                · exact absurd h (by simp)
                · exact absurd h (by simp)
                · cases Option.some.inj haeq
                  exact absurd halt hbal
              · intro _
                refine ⟨fa, ta, rfl, rfl, ?_, rfl⟩
                have e1 := findAccount_updBalance bank.accounts fa.id (-amount)
                  uid f
                have e2 := findAccount_updBalance
                  (updBalance bank.accounts fa.id (-amount)) ta.id amount uid f
                have e3 := findAccount_updBalance bank.accounts fa.id (-amount)
                  uid t
                have e4 := findAccount_updBalance
                  (updBalance bank.accounts fa.id (-amount)) ta.id amount uid t
                refine ⟨{ fa with balance := fa.balance + -amount },
                  { ta with balance := ta.balance + amount }, ?_, ?_, ?_, ?_, ?_⟩
                · show (updBalance (updBalance bank.accounts fa.id (-amount))
                    ta.id amount).find? (fun a => a.user_id == uid && a.name == f)
                    = _
                  rw [e2, e1]
                  rw [show bank.accounts.find?
                    (fun a => a.user_id == uid && a.name == f) = some fa from
                    hfindf]
                  simp [hne]
                · show (updBalance (updBalance bank.accounts fa.id (-amount))
                    ta.id amount).find? (fun a => a.user_id == uid && a.name == t)
                    = _
                  rw [e4, e3]
                  rw [show bank.accounts.find?
                    (fun a => a.user_id == uid && a.name == t) = some ta from
                    hfindt]
                  simp [Ne.symm hne]
                · show fa.balance + -amount = fa.balance - amount
                  ring
                · rfl
                · show (fa.balance + -amount) + (ta.balance + amount) =
                    fa.balance + ta.balance
                  ring

/-- Witness for C10 at a concrete bank: transferring 30 from `checking`
(balance 100) to `savings` (balance 50) succeeds with balances 70/80, and a
non-positive amount is rejected without change. -/
theorem transfer_money_conserves_witness :
    ((transfer_money
        { accounts := [{ id := 1, user_id := "user_1", name := "checking",
                         account_type := "checking", balance := 100 },
                       { id := 2, user_id := "user_1", name := "savings",
                         account_type := "savings", balance := 50 }],
          transactions := [] } "user_1" (some "checking") (some "savings")
          (-5) none).1.status = "error" ∧
      (transfer_money
        { accounts := [{ id := 1, user_id := "user_1", name := "checking",
                         account_type := "checking", balance := 100 },
                       { id := 2, user_id := "user_1", name := "savings",
                         account_type := "savings", balance := 50 }],
          transactions := [] } "user_1" (some "checking") (some "savings")
          (-5) none).2 =
        { accounts := [{ id := 1, user_id := "user_1", name := "checking",
                         account_type := "checking", balance := 100 },
                       { id := 2, user_id := "user_1", name := "savings",
                         account_type := "savings", balance := 50 }],
          transactions := [] }) ∧
    (∃ fa ta,
      findAccount
        { accounts := [{ id := 1, user_id := "user_1", name := "checking",
                         account_type := "checking", balance := 100 },
                       { id := 2, user_id := "user_1", name := "savings",
                         account_type := "savings", balance := 50 }],
          transactions := [] } "user_1" "checking" = some fa ∧
      findAccount
        { accounts := [{ id := 1, user_id := "user_1", name := "checking",
                         account_type := "checking", balance := 100 },
                       { id := 2, user_id := "user_1", name := "savings",
                         account_type := "savings", balance := 50 }],
          transactions := [] } "user_1" "savings" = some ta ∧
      (∃ fa2 ta2,
        findAccount (transfer_money
          { accounts := [{ id := 1, user_id := "user_1", name := "checking",
                           account_type := "checking", balance := 100 },
                         { id := 2, user_id := "user_1", name := "savings",
                           account_type := "savings", balance := 50 }],
            transactions := [] } "user_1" (some "checking") (some "savings")
            30 none).2 "user_1" "checking" = some fa2 ∧
        findAccount (transfer_money
          { accounts := [{ id := 1, user_id := "user_1", name := "checking",
                           account_type := "checking", balance := 100 },
                         { id := 2, user_id := "user_1", name := "savings",
                           account_type := "savings", balance := 50 }],
            transactions := [] } "user_1" (some "checking") (some "savings")
            30 none).2 "user_1" "savings" = some ta2 ∧
        fa2.balance = fa.balance - 30 ∧
        ta2.balance = ta.balance + 30 ∧
        fa2.balance + ta2.balance = fa.balance + ta.balance) ∧
      (transfer_money
        { accounts := [{ id := 1, user_id := "user_1", name := "checking",
                         account_type := "checking", balance := 100 },
                       { id := 2, user_id := "user_1", name := "savings",
                         account_type := "savings", balance := 50 }],
          transactions := [] } "user_1" (some "checking") (some "savings")
          30 none).2.transactions =
        [] ++ [{ from_account_id := fa.id, to_account_id := some ta.id,
                 amount := 30, txn_type := "transfer",
                 description := "Transfer to " ++ "savings",
                 category := "Transfer", status := "completed" }]) :=
  ⟨(transfer_money_conserves
      { accounts := [{ id := 1, user_id := "user_1", name := "checking",
                       account_type := "checking", balance := 100 },
                     { id := 2, user_id := "user_1", name := "savings",
                       account_type := "savings", balance := 50 }],
        transactions := [] } "user_1" "checking" "savings" (-5)
      (by decide) (by decide) (by decide) (by decide)).1
      (Or.inl (by norm_num)),
    (transfer_money_conserves
      { accounts := [{ id := 1, user_id := "user_1", name := "checking",
                       account_type := "checking", balance := 100 },
                     { id := 2, user_id := "user_1", name := "savings",
                       account_type := "savings", balance := 50 }],
        transactions := [] } "user_1" "checking" "savings" 30
      (by decide) (by decide) (by decide) (by decide)).2 (by decide)⟩

theorem add_human_message_shape (sid uid : String) (db : Database) (m : TraceMsg)
    (tid : String) (k : Nat) :
    (add_human_message sid uid db m tid k).chat_history = db.chat_history ++
      [{ message_id := m.id, session_id := sid, user_id := uid,
         agent_id := none, agent_name := none, trace_id := tid,
         message_type := "human", content := m.content, routing_step := k,
         model_name := none, total_tokens := none, completion_tokens := none,
         prompt_tokens := none, tool_id := none, tool_name := none,
         tool_input := none, tool_output := none, tool_call_id := none,
         finish_reason := none, response_time_ms := none }] ∧
    (add_human_message sid uid db m tid k).agent_traces = db.agent_traces ∧
    (add_human_message sid uid db m tid k).tool_usage = db.tool_usage :=
  ⟨rfl, rfl, rfl⟩

theorem add_ai_message_shape (sid uid : String) (db : Database) (m : TraceMsg)
    (tid : String) (dur : ℚ) (ag : Option String) (k : Nat) :
    ∃ aid, (add_ai_message sid uid db m tid dur ag k).chat_history =
      db.chat_history ++
        [{ message_id := m.id, session_id := sid, user_id := uid,
           agent_id := aid, agent_name := ag, trace_id := tid,
           message_type := "ai", content := m.content, routing_step := k,
           model_name := m.model_name, total_tokens := m.total_tokens,
           completion_tokens := m.completion_tokens,
           prompt_tokens := m.prompt_tokens, tool_id := none, tool_name := none,
           tool_input := none, tool_output := none, tool_call_id := none,
           finish_reason := m.finish_reason, response_time_ms := some dur }] ∧
      (add_ai_message sid uid db m tid dur ag k).agent_traces =
        db.agent_traces ∧
      (add_ai_message sid uid db m tid dur ag k).tool_usage = db.tool_usage := by
  cases hres : resolveAgentId db ag with
  | mk aid db1 =>
      have hpres := resolveAgentId_preserves db ag
      rw [hres] at hpres
      refine ⟨aid, ?_, ?_, ?_⟩
      · unfold add_ai_message
        rw [hres]
        dsimp only
        rw [hpres.1]
      · unfold add_ai_message
        rw [hres]
        dsimp only
        exact hpres.2.1
      · unfold add_ai_message
        rw [hres]
        dsimp only
        exact hpres.2.2.1

theorem add_tool_call_message_shape (sid uid : String) (db : Database)
    (m : TraceMsg) (tid : String) (ag : Option String) (k : Nat) :
    ∃ aid tlid, (add_tool_call_message sid uid db m tid ag k).1 =
      { tool_call_id := (firstToolCall m).call_id, tool_id := tlid,
        tool_name := (firstToolCall m).func_name,
        tool_input := (firstToolCall m).func_args,
        total_tokens := m.total_tokens, tool_output := none, status := none } ∧
      ((add_tool_call_message sid uid db m tid ag k).2).chat_history =
        db.chat_history ++
          [{ message_id := m.id, session_id := sid, user_id := uid,
             agent_id := aid, agent_name := ag, trace_id := tid,
             message_type := "tool_call", content := "", routing_step := k,
             model_name := m.model_name, total_tokens := m.total_tokens,
             completion_tokens := m.completion_tokens,
             prompt_tokens := m.prompt_tokens, tool_id := tlid,
             tool_name := (firstToolCall m).func_name,
             tool_input := (firstToolCall m).func_args, tool_output := none,
             tool_call_id := (firstToolCall m).call_id,
             finish_reason := m.finish_reason, response_time_ms := none }] ∧
      ((add_tool_call_message sid uid db m tid ag k).2).agent_traces =
        db.agent_traces ∧
      ((add_tool_call_message sid uid db m tid ag k).2).tool_usage =
        db.tool_usage := by
  cases hres : resolveAgentId db ag with
  | mk aid db1 =>
      have hpres := resolveAgentId_preserves db ag
      rw [hres] at hpres
      dsimp only at hpres
      cases hfn : (firstToolCall m).func_name with
      | none =>
          refine ⟨aid, none, ?_, ?_, ?_, ?_⟩ <;>
            simp [add_tool_call_message, hres, hfn, hpres.1, hpres.2.1,
              hpres.2.2.1]
      | some tn =>
          have hgoc := gocTool_preserves db1 tn
            (some ("Tool used by " ++ orElseStr ag "unknown agent")) none
          refine ⟨aid, (get_or_create_tool_definition db1 tn
            (some ("Tool used by " ++ orElseStr ag "unknown agent")) none).1,
            ?_, ?_, ?_, ?_⟩ <;>
            simp [add_tool_call_message, hres, hfn, hgoc.1, hgoc.2.1,
              hgoc.2.2.1, hpres.1, hpres.2.1, hpres.2.2.1]

theorem add_tool_result_message_shape (sid uid : String) (db : Database)
    (m : TraceMsg) (tid : String) (ag : Option String) (k : Nat) :
    (add_tool_result_message sid uid db m tid ag k).1 =
      (m.tool_output, m.status) ∧
    ∃ aid tlid,
      ((add_tool_result_message sid uid db m tid ag k).2).chat_history =
        db.chat_history ++
          [{ message_id := m.id, session_id := sid, user_id := uid,
             agent_id := aid, agent_name := ag, trace_id := tid,
             message_type := "tool_result", content := "", routing_step := k,
             model_name := none, total_tokens := none,
             completion_tokens := none, prompt_tokens := none,
             tool_id := tlid, tool_name := some m.name, tool_input := none,
             tool_output := some m.tool_output,
             tool_call_id := some m.tool_call_id,
             finish_reason := none, response_time_ms := none }] ∧
      ((add_tool_result_message sid uid db m tid ag k).2).agent_traces =
        db.agent_traces ∧
      ((add_tool_result_message sid uid db m tid ag k).2).tool_usage =
        db.tool_usage := by
  cases hres : resolveAgentId db ag with
  | mk aid db1 =>
      have hpres := resolveAgentId_preserves db ag
      rw [hres] at hpres
      dsimp only at hpres
      have hgoc := gocTool_preserves db1 m.name
        (some ("Tool used by " ++ orElseStr ag "unknown agent")) none
      refine ⟨?_, aid, (get_or_create_tool_definition db1 m.name
        (some ("Tool used by " ++ orElseStr ag "unknown agent")) none).1,
        ?_, ?_, ?_⟩ <;>
        simp [add_tool_result_message, hres, hgoc.1, hgoc.2.1, hgoc.2.2.1,
          hpres.1, hpres.2.1, hpres.2.2.1]

theorem log_agent_routing_shape (sid uid : String) (db : Database)
    (tid : String) (k : Nat) (fromA curA : String) (dur : ℚ) :
    (log_agent_routing sid uid db tid k fromA curA dur).chat_history =
      db.chat_history ∧
    (log_agent_routing sid uid db tid k fromA curA dur).agent_traces =
      db.agent_traces ++
        [{ session_id := sid, trace_id := tid, user_id := uid,
           step_order := k, from_agent := fromA, current_agent := curA,
           execution_duration_ms := dur, success := true,
           error_message := none }] ∧
    (log_agent_routing sid uid db tid k fromA curA dur).tool_usage =
      db.tool_usage :=
  ⟨rfl, rfl, rfl⟩

theorem log_tool_usage_preserves (sid : String) (db : Database)
    (info : ToolCallInfo) (tid ag : String) :
    (log_tool_usage sid db info tid ag).chat_history = db.chat_history ∧
    (log_tool_usage sid db info tid ag).agent_traces = db.agent_traces := by
  cases hres : resolveUsageToolId db info ag with
  | mk info2 db1 =>
      have hpres : db1.chat_history = db.chat_history ∧
          db1.agent_traces = db.agent_traces := by
        have : (resolveUsageToolId db info ag).2 = db1 := by rw [hres]
        rw [← this]
        unfold resolveUsageToolId
        split
        · exact ⟨rfl, rfl⟩
        · split
          · exact ⟨(gocTool_preserves _ _ _ _).1, (gocTool_preserves _ _ _ _).2.1⟩
          · exact ⟨rfl, rfl⟩
      constructor <;>
        · unfold log_tool_usage
          rw [hres]
          dsimp only
          split
          · simp [hpres.1, hpres.2]
          · split <;> simp [hpres.1, hpres.2]

/-- **C8 counterexample.** The claim says the content-safety handler's
AgentTrace hop record has "success flag false" and an error_message
summarising the rejection.  On a concrete rejection the single persisted hop
record has `success = true` (the column default — `_log_agent_routing` never
passes `success`/`error_message`) and no error message. -/
theorem content_safety_success_flag_counterexample :
    ((log_content_safety_violation emptyDb
        { session_id := "s1", user_id := "user_1", trace_id := "t1",
          user_message := some "some disallowed request",
          message := mkAiMsg "msg_ai_1" "I cannot help with that request."
            (some "content_filter") [],
          agent_name := "account_agent" }).agent_traces.map
      (fun r => (r.from_agent, r.success, r.error_message))) =
      [("system", true, none)] := by
  rfl

/-- **C8 (amended).** Content-safety fallback always yields loggable records:
for every handled content-policy rejection, the handler persists a Human
message record exactly when the original user message is present (truthy),
always persists exactly one synthetic AI refusal record attributed to the
responding agent, and always persists exactly one AgentTrace hop record with
from_agent `"system"` — whose success flag keeps its column default `true`
and whose error_message stays unset (the code never marks the hop failed) —
so the trace is never silently dropped. -/
theorem content_safety_fallback_records (db : Database)
    (req : SafetyViolationRequest) :
    ((log_content_safety_violation db req).chat_history.filter
        (fun r => r.message_type == "human")).length =
      (db.chat_history.filter (fun r => r.message_type == "human")).length +
        (if truthyOptStr req.user_message = true then 1 else 0) ∧
    (∃ aiRow,
      (log_content_safety_violation db req).chat_history.filter
          (fun r => r.message_type == "ai") =
        db.chat_history.filter (fun r => r.message_type == "ai") ++ [aiRow] ∧
      aiRow.agent_name = some req.agent_name ∧
      aiRow.content = req.message.content) ∧
    (log_content_safety_violation db req).agent_traces =
      db.agent_traces ++
        [{ session_id := req.session_id, trace_id := req.trace_id,
           user_id := req.user_id, step_order := 1, from_agent := "system",
           current_agent := req.agent_name, execution_duration_ms := 0,
           success := true, error_message := none }] := by
  by_cases htr : truthyOptStr req.user_message = true
  · have h1 : log_content_safety_violation db req =
        log_agent_routing req.session_id req.user_id
          (add_ai_message req.session_id req.user_id
            (add_human_message req.session_id req.user_id
              { db with next_uuid := db.next_uuid + 1 }
              { cls := "HumanMessage", id := "msg_" ++ toString db.next_uuid,
                content := req.user_message.getD "", finish_reason := none,
                tool_calls := [], total_tokens := none,
                completion_tokens := none, prompt_tokens := none,
                model_name := none, name := "", tool_call_id := "",
                tool_output := PyVal.pstr "", status := "" }
              req.trace_id 0)
            req.message req.trace_id 0 (some req.agent_name) 1)
          req.trace_id 1 "system" req.agent_name 0 := by
      unfold log_content_safety_violation
      rw [if_pos htr]
    obtain ⟨aid, hai1, hai2, _⟩ := add_ai_message_shape req.session_id
      req.user_id
      (add_human_message req.session_id req.user_id
        { db with next_uuid := db.next_uuid + 1 }
        { cls := "HumanMessage", id := "msg_" ++ toString db.next_uuid,
          content := req.user_message.getD "", finish_reason := none,
          tool_calls := [], total_tokens := none, completion_tokens := none,
          prompt_tokens := none, model_name := none, name := "",
          tool_call_id := "", tool_output := PyVal.pstr "", status := "" }
        req.trace_id 0)
      req.message req.trace_id 0 (some req.agent_name) 1
    rw [h1]
    refine ⟨?_, ?_, ?_⟩
    · rw [(log_agent_routing_shape _ _ _ _ _ _ _ _).1, hai1,
        (add_human_message_shape _ _ _ _ _ _).1]
      simp [htr, List.filter_append]
    · refine ⟨{
          message_id := req.message.id, session_id := req.session_id,
          user_id := req.user_id, agent_id := aid,
          agent_name := some req.agent_name, trace_id := req.trace_id,
          message_type := "ai", content := req.message.content,
          routing_step := 1, model_name := req.message.model_name,
          total_tokens := req.message.total_tokens,
          completion_tokens := req.message.completion_tokens,
          prompt_tokens := req.message.prompt_tokens, tool_id := none,
          tool_name := none, tool_input := none, tool_output := none,
          tool_call_id := none, finish_reason := req.message.finish_reason,
          response_time_ms := some 0 }, ?_, rfl, rfl⟩
      rw [(log_agent_routing_shape _ _ _ _ _ _ _ _).1, hai1,
        (add_human_message_shape _ _ _ _ _ _).1]
      simp [List.filter_append]
    · rw [(log_agent_routing_shape _ _ _ _ _ _ _ _).2.1, hai2,
        (add_human_message_shape _ _ _ _ _ _).2.1]
  · have h1 : log_content_safety_violation db req =
        log_agent_routing req.session_id req.user_id
          (add_ai_message req.session_id req.user_id db req.message
            req.trace_id 0 (some req.agent_name) 1)
          req.trace_id 1 "system" req.agent_name 0 := by
      unfold log_content_safety_violation
      rw [if_neg htr]
    obtain ⟨aid, hai1, hai2, _⟩ := add_ai_message_shape req.session_id
      req.user_id db req.message req.trace_id 0 (some req.agent_name) 1
    rw [h1]
    refine ⟨?_, ?_, ?_⟩
    · rw [(log_agent_routing_shape _ _ _ _ _ _ _ _).1, hai1]
      simp [htr, List.filter_append]
    · refine ⟨{
          message_id := req.message.id, session_id := req.session_id,
          user_id := req.user_id, agent_id := aid,
          agent_name := some req.agent_name, trace_id := req.trace_id,
          message_type := "ai", content := req.message.content,
          routing_step := 1, model_name := req.message.model_name,
          total_tokens := req.message.total_tokens,
          completion_tokens := req.message.completion_tokens,
          prompt_tokens := req.message.prompt_tokens, tool_id := none,
          tool_name := none, tool_input := none, tool_output := none,
          tool_call_id := none, finish_reason := req.message.finish_reason,
          response_time_ms := some 0 }, ?_, rfl, rfl⟩
      rw [(log_agent_routing_shape _ _ _ _ _ _ _ _).1, hai1]
      simp [List.filter_append]
    · rw [(log_agent_routing_shape _ _ _ _ _ _ _ _).2.1, hai2]

theorem filter_append_one {α : Type} (p : α → Bool) (l : List α) (x : α) :
    (List.filter p (l ++ [x])).length =
      (List.filter p l).length + (if p x = true then 1 else 0) := by
  rw [List.filter_append]
  by_cases h : p x = true
  · simp [List.filter_cons, h]
  · simp [List.filter_cons, h]

/-- One-step effects of the inner message loop: AgentTrace rows are never
touched, the seen-id list only grows (by exactly the processed id when a
dedup-tracked message is new), every dedup-tracked message ends up seen, and
the Human/AI row count increases exactly when a dedup-tracked message with
an unseen id is processed. -/
theorem processMsg_effects (ctx : ReconcileCtx) (ag : String) (k : Nat)
    (dur : ℚ) (ts : TraceState) (m : TraceMsg) :
    (processMsg ctx ag k dur ts m).db.agent_traces = ts.db.agent_traces ∧
    (∀ x ∈ ts.id_list, x ∈ (processMsg ctx ag k dur ts m).id_list) ∧
    (dedupTracked m = true → m.id ∈ (processMsg ctx ag k dur ts m).id_list) ∧
    humanAiCount (processMsg ctx ag k dur ts m).db =
      humanAiCount ts.db +
        (if dedupTracked m = true ∧ m.id ∉ ts.id_list then 1 else 0) ∧
    ((dedupTracked m = true → m.id ∈ ts.id_list) →
      (processMsg ctx ag k dur ts m).id_list = ts.id_list ∧
      humanAiCount (processMsg ctx ag k dur ts m).db = humanAiCount ts.db) ∧
    (processMsg ctx ag k dur ts m).prev_agent = ag := by
  by_cases hH : m.cls = "HumanMessage"
  · have hded : dedupTracked m = true := by simp [dedupTracked, hH]
    by_cases hid : m.id ∈ ts.id_list
    · have hstate : processMsg ctx ag k dur ts m = { ts with prev_agent := ag } := by
        simp only [processMsg]
        rw [if_pos hH, if_pos hid]
      rw [hstate]
      exact ⟨rfl, fun x hx => hx, fun _ => hid, by simp [hid, hded],
        fun _ => ⟨rfl, rfl⟩, rfl⟩
    · have hstate : processMsg ctx ag k dur ts m =
          { ts with
            db := add_human_message ctx.session_id ctx.user_id ts.db m
              ctx.trace_id 0,
            id_list := ts.id_list ++ [m.id], prev_agent := ag } := by
        simp only [processMsg]
        rw [if_pos hH, if_neg hid]
      rw [hstate]
      have hsh := add_human_message_shape ctx.session_id ctx.user_id ts.db m
        ctx.trace_id 0
      refine ⟨hsh.2.1, fun x hx => List.mem_append_left _ hx,
        fun _ => List.mem_append_right _ (List.mem_singleton_self _), ?_,
        fun hseen => absurd (hseen hded) hid, rfl⟩
      show humanAiCount (add_human_message ctx.session_id ctx.user_id ts.db m
        ctx.trace_id 0) = _
      unfold humanAiCount
      rw [hsh.1, filter_append_one]
      simp [isHumanAiRow, hded, hid]
  · by_cases hA : m.cls = "AIMessage"
    · by_cases hfr : m.finish_reason = some "tool_calls"
      · have hded : dedupTracked m = false := by simp [dedupTracked, hH, hA, hfr]
        have hstate : processMsg ctx ag k dur ts m =
            { ts with
              db := (add_tool_call_message ctx.session_id ctx.user_id ts.db m
                ctx.trace_id (some ag) k).2,
              last_tool_call := some (add_tool_call_message ctx.session_id
                ctx.user_id ts.db m ctx.trace_id (some ag) k).1,
              prev_agent := ag } := by
          simp only [processMsg]
          rw [if_neg hH, if_pos hA,
            if_neg (show ¬(m.finish_reason ≠ some "tool_calls") from
              fun h => h hfr)]
        rw [hstate]
        obtain ⟨aid, tlid, _, hchat, htraces, _⟩ :=
          add_tool_call_message_shape ctx.session_id ctx.user_id ts.db m
            ctx.trace_id (some ag) k
        refine ⟨htraces, fun x hx => hx, fun hd => absurd hd (by simp [hded]),
          ?_, fun _ => ⟨rfl, ?_⟩, rfl⟩
        · show humanAiCount (add_tool_call_message ctx.session_id ctx.user_id
            ts.db m ctx.trace_id (some ag) k).2 = _
          unfold humanAiCount
          rw [hchat, filter_append_one]
          simp [isHumanAiRow, hded]
        · show humanAiCount (add_tool_call_message ctx.session_id ctx.user_id
            ts.db m ctx.trace_id (some ag) k).2 = _
          unfold humanAiCount
          rw [hchat, filter_append_one]
          simp [isHumanAiRow]
      · have hded : dedupTracked m = true := by simp [dedupTracked, hH, hA, hfr]
        by_cases hid : m.id ∈ ts.id_list
        · have hstate : processMsg ctx ag k dur ts m =
              { ts with prev_agent := ag } := by
            simp only [processMsg]
            rw [if_neg hH, if_pos hA, if_pos hfr, if_pos hid]
          rw [hstate]
          exact ⟨rfl, fun x hx => hx, fun _ => hid, by simp [hid, hded],
            fun _ => ⟨rfl, rfl⟩, rfl⟩
        · have hstate : processMsg ctx ag k dur ts m =
              { ts with
                db := add_ai_message ctx.session_id ctx.user_id ts.db m
                  ctx.trace_id dur (some ag) k,
                id_list := ts.id_list ++ [m.id], prev_agent := ag } := by
            simp only [processMsg]
            rw [if_neg hH, if_pos hA, if_pos hfr, if_neg hid]
          rw [hstate]
          obtain ⟨aid, hchat, htraces, _⟩ := add_ai_message_shape
            ctx.session_id ctx.user_id ts.db m ctx.trace_id dur (some ag) k
          refine ⟨htraces, fun x hx => List.mem_append_left _ hx,
            fun _ => List.mem_append_right _ (List.mem_singleton_self _), ?_,
            fun hseen => absurd (hseen hded) hid, rfl⟩
          show humanAiCount (add_ai_message ctx.session_id ctx.user_id ts.db m
            ctx.trace_id dur (some ag) k) = _
          unfold humanAiCount
          rw [hchat, filter_append_one]
          simp [isHumanAiRow, hded, hid]
    · have hded : dedupTracked m = false := by simp [dedupTracked, hH, hA]
      by_cases hT : m.cls = "ToolMessage"
      · cases hltc : ts.last_tool_call with
        | none =>
            have hstate : processMsg ctx ag k dur ts m =
                { ts with
                  db := (add_tool_result_message ctx.session_id ctx.user_id
                    ts.db m ctx.trace_id (some ag) k).2,
                  prev_agent := ag } := by
              simp only [processMsg]
              rw [if_neg hH, if_neg hA, if_pos hT, hltc]
            rw [hstate]
            obtain ⟨_, aid, tlid, hchat, htraces, _⟩ :=
              add_tool_result_message_shape ctx.session_id ctx.user_id ts.db m
                ctx.trace_id (some ag) k
            refine ⟨htraces, fun x hx => hx,
              fun hd => absurd hd (by simp [hded]), ?_,
              fun _ => ⟨rfl, ?_⟩, rfl⟩ <;>
              · show humanAiCount (add_tool_result_message ctx.session_id
                  ctx.user_id ts.db m ctx.trace_id (some ag) k).2 = _
                unfold humanAiCount
                rw [hchat, filter_append_one]
                simp [isHumanAiRow, hded]
        | some tc =>
            have hstate : processMsg ctx ag k dur ts m =
                { ts with
                  db := log_tool_usage ctx.session_id
                    (add_tool_result_message ctx.session_id ctx.user_id ts.db m
                      ctx.trace_id (some ag) k).2
                    (mergeToolInfo tc
                      (add_tool_result_message ctx.session_id ctx.user_id ts.db
                        m ctx.trace_id (some ag) k).1.1
                      (add_tool_result_message ctx.session_id ctx.user_id ts.db
                        m ctx.trace_id (some ag) k).1.2)
                    ctx.trace_id ag,
                  last_tool_call := some (mergeToolInfo tc
                    (add_tool_result_message ctx.session_id ctx.user_id ts.db m
                      ctx.trace_id (some ag) k).1.1
                    (add_tool_result_message ctx.session_id ctx.user_id ts.db m
                      ctx.trace_id (some ag) k).1.2),
                  prev_agent := ag } := by
              simp only [processMsg]
              rw [if_neg hH, if_neg hA, if_pos hT, hltc]
            rw [hstate]
            obtain ⟨_, aid, tlid, hchat, htraces, _⟩ :=
              add_tool_result_message_shape ctx.session_id ctx.user_id ts.db m
                ctx.trace_id (some ag) k
            have hlu := log_tool_usage_preserves ctx.session_id
              (add_tool_result_message ctx.session_id ctx.user_id ts.db m
                ctx.trace_id (some ag) k).2
              (mergeToolInfo tc
                (add_tool_result_message ctx.session_id ctx.user_id ts.db m
                  ctx.trace_id (some ag) k).1.1
                (add_tool_result_message ctx.session_id ctx.user_id ts.db m
                  ctx.trace_id (some ag) k).1.2)
              ctx.trace_id ag
            refine ⟨hlu.2.trans htraces, fun x hx => hx,
              fun hd => absurd hd (by simp [hded]), ?_,
              fun _ => ⟨rfl, ?_⟩, rfl⟩ <;>
              · show humanAiCount (log_tool_usage ctx.session_id _ _ _ _) = _
                unfold humanAiCount
                rw [hlu.1, hchat, filter_append_one]
                simp [isHumanAiRow, hded]
      · have hstate : processMsg ctx ag k dur ts m =
            { ts with prev_agent := ag } := by
          simp only [processMsg]
          rw [if_neg hH, if_neg hA, if_neg hT]
        rw [hstate]
        exact ⟨rfl, fun x hx => hx, fun hd => absurd hd (by simp [hded]),
          by simp [hded], fun _ => ⟨rfl, rfl⟩, rfl⟩

theorem processMsgs_effects (ctx : ReconcileCtx) (ag : String) (k : Nat)
    (dur : ℚ) :
    ∀ (ms : List TraceMsg) (ts : TraceState),
    (processMsgs ctx ag k dur ts ms).db.agent_traces = ts.db.agent_traces ∧
    (∀ x ∈ ts.id_list, x ∈ (processMsgs ctx ag k dur ts ms).id_list) ∧
    (∀ m ∈ ms, dedupTracked m = true →
      m.id ∈ (processMsgs ctx ag k dur ts ms).id_list) ∧
    ((∀ m ∈ ms, dedupTracked m = true → m.id ∈ ts.id_list) →
      (processMsgs ctx ag k dur ts ms).id_list = ts.id_list ∧
      humanAiCount (processMsgs ctx ag k dur ts ms).db = humanAiCount ts.db) ∧
    (processMsgs ctx ag k dur ts ms).prev_agent =
      (if ms.isEmpty then ts.prev_agent else ag) := by
  intro ms
  induction ms with
  | nil =>
      intro ts
      exact ⟨rfl, fun x hx => hx, by simp, fun _ => ⟨rfl, rfl⟩,
        by simp [processMsgs]⟩
  | cons m rest ih =>
      intro ts
      have hm := processMsg_effects ctx ag k dur ts m
      have hr := ih (processMsg ctx ag k dur ts m)
      refine ⟨hr.1.trans hm.1, ?_, ?_, ?_, ?_⟩
      · intro x hx
        exact hr.2.1 x (hm.2.1 x hx)
      · intro m2 hm2 hd
        rcases List.mem_cons.mp hm2 with h | h
        · subst h
          exact hr.2.1 _ (hm.2.2.1 hd)
        · exact hr.2.2.1 m2 h hd
      · intro hseen
        have h1 := hm.2.2.2.2.1
          (fun hd => hseen m (List.mem_cons_self m rest) hd)
        have h2 := hr.2.2.2.1 (by
          intro m2 hm2 hd
          rw [h1.1]
          exact hseen m2 (List.mem_cons_of_mem m hm2) hd)
        exact ⟨h2.1.trans h1.1, h2.2.trans h1.2⟩
      · show (processMsgs ctx ag k dur (processMsg ctx ag k dur ts m)
          rest).prev_agent = _
        rw [hr.2.2.2.2]
        by_cases hrest : rest.isEmpty = true
        · rw [if_pos hrest, hm.2.2.2.2.2]
          simp
        · rw [if_neg hrest]
          simp

theorem processHop_effects (ctx : ReconcileCtx) (ts : TraceState) (i : Nat)
    (h : Hop) :
    (processHop ctx ts i h).db.agent_traces =
      ts.db.agent_traces ++ [hopTraceRow ctx (i+1) ts.prev_agent h] ∧
    (∀ x ∈ ts.id_list, x ∈ (processHop ctx ts i h).id_list) ∧
    (∀ m ∈ h.batch, dedupTracked m = true →
      m.id ∈ (processHop ctx ts i h).id_list) ∧
    ((∀ m ∈ h.batch, dedupTracked m = true → m.id ∈ ts.id_list) →
      (processHop ctx ts i h).id_list = ts.id_list ∧
      humanAiCount (processHop ctx ts i h).db = humanAiCount ts.db) ∧
    (processHop ctx ts i h).prev_agent =
      (if h.batch.isEmpty then ts.prev_agent else h.agent) := by
  have hpm := processMsgs_effects ctx h.agent (i+1) (h.time_s * 1000) h.batch
    { ts with
      db := log_agent_routing ctx.session_id ctx.user_id ts.db ctx.trace_id
        (i+1) ts.prev_agent h.agent (h.time_s * 1000) }
  refine ⟨hpm.1.trans rfl, hpm.2.1, hpm.2.2.1, ?_, hpm.2.2.2.2⟩
  intro hseen
  have := hpm.2.2.2.1 hseen
  exact ⟨this.1, this.2.trans rfl⟩

theorem runHops_effects (ctx : ReconcileCtx) :
    ∀ (hops : List Hop) (ts : TraceState) (i : Nat),
    (runHops ctx ts i hops).db.agent_traces =
      ts.db.agent_traces ++ tracesForHops ctx ts.prev_agent i hops ∧
    (∀ x ∈ ts.id_list, x ∈ (runHops ctx ts i hops).id_list) ∧
    (∀ hp ∈ hops, ∀ m ∈ hp.batch, dedupTracked m = true →
      m.id ∈ (runHops ctx ts i hops).id_list) ∧
    ((∀ hp ∈ hops, ∀ m ∈ hp.batch, dedupTracked m = true →
        m.id ∈ ts.id_list) →
      (runHops ctx ts i hops).id_list = ts.id_list ∧
      humanAiCount (runHops ctx ts i hops).db = humanAiCount ts.db) ∧
    (runHops ctx ts i hops).prev_agent = lastAgentOf ts.prev_agent hops := by
  intro hops
  induction hops with
  | nil =>
      intro ts i
      exact ⟨by simp [runHops, tracesForHops], fun x hx => hx, by simp,
        fun _ => ⟨rfl, rfl⟩, rfl⟩
  | cons h rest ih =>
      intro ts i
      have hh := processHop_effects ctx ts i h
      have hr := ih (processHop ctx ts i h) (i+1)
      refine ⟨?_, ?_, ?_, ?_, ?_⟩
      · show (runHops ctx (processHop ctx ts i h) (i+1) rest).db.agent_traces = _
        rw [hr.1, hh.1, hh.2.2.2.2]
        show _ = ts.db.agent_traces ++ (hopTraceRow ctx (i+1) ts.prev_agent h ::
          tracesForHops ctx (if h.batch.isEmpty then ts.prev_agent else h.agent)
            (i+1) rest)
        simp
      · intro x hx
        exact hr.2.1 x (hh.2.1 x hx)
      · intro hp hhp m hm hd
        rcases List.mem_cons.mp hhp with he | he
        · subst he
          exact hr.2.1 _ (hh.2.2.1 m hm hd)
        · exact hr.2.2.1 hp he m hm hd
      · intro hseen
        have h1 := hh.2.2.2.1
          (fun m hm hd => hseen h (List.mem_cons_self h rest) m hm hd)
        have h2 := hr.2.2.2.1 (by
          intro hp hhp m hm hd
          rw [h1.1]
          exact hseen hp (List.mem_cons_of_mem h hhp) m hm hd)
        exact ⟨h2.1.trans h1.1, h2.2.trans h1.2⟩
      · show (runHops ctx (processHop ctx ts i h) (i+1) rest).prev_agent = _
        rw [hr.2.2.2.2, hh.2.2.2.2]
        rfl

theorem runHops_append (ctx : ReconcileCtx) :
    ∀ (h1 h2 : List Hop) (ts : TraceState) (i : Nat),
    runHops ctx ts i (h1 ++ h2) =
      runHops ctx (runHops ctx ts i h1) (i + h1.length) h2 := by
  intro h1
  induction h1 with
  | nil => intro h2 ts i; simp [runHops]
  | cons h t ih =>
      intro h2 ts i
      show runHops ctx (processHop ctx ts i h) (i+1) (t ++ h2) = _
      rw [ih h2 (processHop ctx ts i h) (i+1)]
      have harith : i + 1 + t.length = i + (t.length + 1) := by omega
      rw [harith]
      rfl

theorem tracesForHops_length (ctx : ReconcileCtx) :
    ∀ (hops : List Hop) (prev : String) (i : Nat),
    (tracesForHops ctx prev i hops).length = hops.length := by
  intro hops
  induction hops with
  | nil => intro prev i; rfl
  | cons h t ih =>
      intro prev i
      show (hopTraceRow ctx (i+1) prev h :: tracesForHops ctx _ (i+1) t).length
        = t.length + 1
      rw [List.length_cons, ih]

theorem tracesForHops_getElem (ctx : ReconcileCtx) :
    ∀ (hops : List Hop) (prev : String) (i j : Nat) (h : Hop),
    hops[j]? = some h →
    (tracesForHops ctx prev i hops)[j]? =
      some (hopTraceRow ctx (i + j + 1) (lastAgentOf prev (hops.take j)) h) := by
  intro hops
  induction hops with
  | nil =>
      intro prev i j h hj
      simp at hj
  | cons hd t ih =>
      intro prev i j h hj
      cases j with
      | zero =>
          simp only [List.getElem?_cons_zero, Option.some.injEq] at hj
          subst hj
          simp [tracesForHops, lastAgentOf]
      | succ j2 =>
          have hrec := ih (if hd.batch.isEmpty then prev else hd.agent) (i+1)
            j2 h (by simpa using hj)
          have harith : i + 1 + j2 + 1 = i + (j2 + 1) + 1 := by omega
          rw [harith] at hrec
          rw [show tracesForHops ctx prev i (hd :: t) =
              hopTraceRow ctx (i+1) prev hd :: tracesForHops ctx
                (if hd.batch.isEmpty then prev else hd.agent) (i+1) t from rfl]
          rw [List.getElem?_cons_succ, hrec]
          rfl

/-- **C7 counterexample.** The claim says hop `i`'s from_agent equals the
previous hop's agent name for every later hop.  With a first hop whose
message batch is EMPTY (so `prev_agent`, updated only inside the per-message
loop, is never touched), the second hop's record still reads `"system"`
instead of the first hop's agent. -/
theorem hop_from_agent_counterexample :
    ((add_multi_agent_trace (⟨"s1", "user_1", "t1"⟩ : ReconcileCtx) emptyDb
        [{ batch := [], agent := "account_agent", time_s := 1 },
         { batch := [mkHumanMsg "m1" "hello"], agent := "support_agent",
           time_s := 1 }]).agent_traces.map AgentTraceRow.from_agent) =
      ["system", "system"] ∧
    ("system" : String) ≠ "account_agent" := by
  exact ⟨rfl, by decide⟩

/-- **C7 (amended).** Hop logging is positionally faithful: reconciliation
appends exactly one AgentTrace record per hop, and hop `j` (0-indexed)
carries `step_order = j+1`, `current_agent` = the j-th agent name,
`execution_duration_ms` = the j-th duration entry (seconds × 1000), and
`from_agent` = the agent of the LAST earlier hop whose batch is non-empty
(`"system"` when every earlier batch is empty — in particular for the first
hop).  The unamended "previous hop's agent" holds only when the previous
hop's batch is non-empty. -/
theorem hop_logging_positional (ctx : ReconcileCtx) (db : Database)
    (hops : List Hop) (j : Nat) (h : Hop) (hj : hops[j]? = some h) :
    (add_multi_agent_trace ctx db hops).agent_traces =
      db.agent_traces ++ tracesForHops ctx "system" 0 hops ∧
    (tracesForHops ctx "system" 0 hops).length = hops.length ∧
    (tracesForHops ctx "system" 0 hops)[j]? =
      some { session_id := ctx.session_id, trace_id := ctx.trace_id,
             user_id := ctx.user_id, step_order := j + 1,
             from_agent := lastAgentOf "system" (hops.take j),
             current_agent := h.agent,
             execution_duration_ms := h.time_s * 1000,
             success := true, error_message := none } := by
  refine ⟨(runHops_effects ctx hops (initTraceState db) 0).1, ?_, ?_⟩
  · exact tracesForHops_length ctx hops "system" 0
  · have := tracesForHops_getElem ctx hops "system" 0 j h hj
    simpa [hopTraceRow] using this

/-- Witness for the amended C7: two hops with non-empty batches; the second
hop's record points back at the first hop's agent. -/
theorem hop_logging_positional_witness :
    ((add_multi_agent_trace (⟨"s1", "user_1", "t1"⟩ : ReconcileCtx) emptyDb
        [{ batch := [mkHumanMsg "m1" "what is my balance"],
           agent := "account_agent", time_s := 1 },
         { batch := [mkAiMsg "m2" "done" (some "stop") []],
           agent := "support_agent", time_s := 2 }]).agent_traces =
      emptyDb.agent_traces ++ tracesForHops (⟨"s1", "user_1", "t1"⟩ : ReconcileCtx) "system" 0
        [{ batch := [mkHumanMsg "m1" "what is my balance"],
           agent := "account_agent", time_s := 1 },
         { batch := [mkAiMsg "m2" "done" (some "stop") []],
           agent := "support_agent", time_s := 2 }]) ∧
    (tracesForHops (⟨"s1", "user_1", "t1"⟩ : ReconcileCtx) "system" 0
        [{ batch := [mkHumanMsg "m1" "what is my balance"],
           agent := "account_agent", time_s := 1 },
         { batch := [mkAiMsg "m2" "done" (some "stop") []],
           agent := "support_agent", time_s := 2 }])[1]? =
      some { session_id := "s1", trace_id := "t1", user_id := "user_1",
             step_order := 2,
             from_agent := lastAgentOf "system"
               ([{ batch := [mkHumanMsg "m1" "what is my balance"],
                   agent := "account_agent", time_s := 1 },
                 { batch := [mkAiMsg "m2" "done" (some "stop") []],
                   agent := "support_agent", time_s := 2 }].take 1),
             current_agent := "support_agent",
             execution_duration_ms := (2 : ℚ) * 1000,
             success := true, error_message := none } :=
  ⟨(hop_logging_positional (⟨"s1", "user_1", "t1"⟩ : ReconcileCtx) emptyDb
      [{ batch := [mkHumanMsg "m1" "what is my balance"],
         agent := "account_agent", time_s := 1 },
       { batch := [mkAiMsg "m2" "done" (some "stop") []],
         agent := "support_agent", time_s := 2 }] 1
      { batch := [mkAiMsg "m2" "done" (some "stop") []],
        agent := "support_agent", time_s := 2 } rfl).1,
    (hop_logging_positional (⟨"s1", "user_1", "t1"⟩ : ReconcileCtx) emptyDb
      [{ batch := [mkHumanMsg "m1" "what is my balance"],
         agent := "account_agent", time_s := 1 },
       { batch := [mkAiMsg "m2" "done" (some "stop") []],
         agent := "support_agent", time_s := 2 }] 1
      { batch := [mkAiMsg "m2" "done" (some "stop") []],
        agent := "support_agent", time_s := 2 } rfl).2.2⟩

/-- **C1.** Reconciliation is idempotent under replay: running the same
sequence of message-event batches twice within one trace (an upstream retry
replaying the identical events into the same reconciliation) leaves the
persisted count of Human and non-tool-call AI message records identical —
the id_list seen-message-id set, scoped to the whole trace, suppresses
re-insertion of every already-seen message id. -/
theorem reconcile_replay_idempotent (ctx : ReconcileCtx) (db : Database)
    (hops : List Hop) :
    humanAiCount (add_multi_agent_trace ctx db (hops ++ hops)) =
      humanAiCount (add_multi_agent_trace ctx db hops) := by
  unfold add_multi_agent_trace
  rw [runHops_append]
  have h1 := runHops_effects ctx hops (initTraceState db) 0
  have h2 := runHops_effects ctx hops (runHops ctx (initTraceState db) 0 hops)
    (0 + hops.length)
  exact (h2.2.2.2.1 h1.2.2.1).2

/-- **C5.** Classification of an AI event is decided solely by its
finish_reason: an AIMessage in a reconciled batch is persisted as a
`tool_call` record iff its finish_reason equals `"tool_calls"` — and then
only the FIRST requested tool call's name, call id, and arguments are
recorded, even when the event carries several — while any other
finish_reason persists the event as a final AI (`"ai"`) record (when its id
has not already been seen, the seen-id dedup rule being the only other
gate), never as a tool_call. -/
theorem ai_event_classification (ctx : ReconcileCtx) (ag : String) (k : Nat)
    (dur : ℚ) (ts : TraceState) (m : TraceMsg) (hcls : m.cls = "AIMessage") :
    (m.finish_reason = some "tool_calls" →
      ∃ row, (processMsg ctx ag k dur ts m).db.chat_history =
          ts.db.chat_history ++ [row] ∧
        row.message_type = "tool_call" ∧
        row.tool_name = (firstToolCall m).func_name ∧
        row.tool_call_id = (firstToolCall m).call_id ∧
        row.tool_input = (firstToolCall m).func_args) ∧
    (m.finish_reason ≠ some "tool_calls" →
      (m.id ∉ ts.id_list →
        ∃ row, (processMsg ctx ag k dur ts m).db.chat_history =
            ts.db.chat_history ++ [row] ∧
          row.message_type = "ai" ∧ row.agent_name = some ag ∧
          row.content = m.content ∧
          row.finish_reason = m.finish_reason) ∧
      ∀ row ∈ (processMsg ctx ag k dur ts m).db.chat_history,
        row.message_type = "tool_call" → row ∈ ts.db.chat_history) := by
  have hH : ¬ m.cls = "HumanMessage" := by
    rw [hcls]
    decide
  constructor
  · intro hfr
    have hstate : processMsg ctx ag k dur ts m =
        { ts with
          db := (add_tool_call_message ctx.session_id ctx.user_id ts.db m
            ctx.trace_id (some ag) k).2,
          last_tool_call := some (add_tool_call_message ctx.session_id
            ctx.user_id ts.db m ctx.trace_id (some ag) k).1,
          prev_agent := ag } := by
      simp only [processMsg]
      rw [if_neg hH, if_pos hcls,
        if_neg (show ¬(m.finish_reason ≠ some "tool_calls") from fun h => h hfr)]
    rw [hstate]
    obtain ⟨aid, tlid, _, hchat, _, _⟩ := add_tool_call_message_shape
      ctx.session_id ctx.user_id ts.db m ctx.trace_id (some ag) k
    exact ⟨_, hchat, rfl, rfl, rfl, rfl⟩
  · intro hfr
    by_cases hid : m.id ∈ ts.id_list
    · have hstate : processMsg ctx ag k dur ts m =
          { ts with prev_agent := ag } := by
        simp only [processMsg]
        rw [if_neg hH, if_pos hcls, if_pos hfr, if_pos hid]
      rw [hstate]
      exact ⟨fun h => absurd hid h, fun row hr _ => hr⟩
    · have hstate : processMsg ctx ag k dur ts m =
          { ts with
            db := add_ai_message ctx.session_id ctx.user_id ts.db m
              ctx.trace_id dur (some ag) k,
            id_list := ts.id_list ++ [m.id], prev_agent := ag } := by
        simp only [processMsg]
        rw [if_neg hH, if_pos hcls, if_pos hfr, if_neg hid]
      rw [hstate]
      obtain ⟨aid, hchat, _, _⟩ := add_ai_message_shape ctx.session_id
        ctx.user_id ts.db m ctx.trace_id dur (some ag) k
      refine ⟨fun _ => ⟨_, hchat, rfl, rfl, rfl, rfl⟩, ?_⟩
      intro row hr htc
      rw [hchat] at hr
      rcases List.mem_append.mp hr with hmem | hmem
      · exact hmem
      · rw [List.mem_singleton.mp hmem] at htc
        exact absurd htc (by simp)

/-- Witness for C5: an AI event with finish_reason `"tool_calls"` carrying
TWO requested calls is persisted as a tool_call row recording only the first
call's name, id, and arguments; an AI event with finish_reason `"stop"` and
a fresh id is persisted as an `"ai"` row. -/
theorem ai_event_classification_witness :
    (∃ row, (processMsg (⟨"s1", "user_1", "t1"⟩ : ReconcileCtx)
        "account_agent" 1 1000 (initTraceState emptyDb)
        (mkAiMsg "m1" "" (some "tool_calls")
          [{ call_id := some "call_1", func_name := some "transfer_money_tool",
             func_args := some "first args" },
           { call_id := some "call_2", func_name := some "query_database",
             func_args := some "second args" }])).db.chat_history =
        (initTraceState emptyDb).db.chat_history ++ [row] ∧
      row.message_type = "tool_call" ∧
      row.tool_name = (firstToolCall (mkAiMsg "m1" "" (some "tool_calls")
          [{ call_id := some "call_1", func_name := some "transfer_money_tool",
             func_args := some "first args" },
           { call_id := some "call_2", func_name := some "query_database",
             func_args := some "second args" }])).func_name ∧
      row.tool_call_id = (firstToolCall (mkAiMsg "m1" "" (some "tool_calls")
          [{ call_id := some "call_1", func_name := some "transfer_money_tool",
             func_args := some "first args" },
           { call_id := some "call_2", func_name := some "query_database",
             func_args := some "second args" }])).call_id ∧
      row.tool_input = (firstToolCall (mkAiMsg "m1" "" (some "tool_calls")
          [{ call_id := some "call_1", func_name := some "transfer_money_tool",
             func_args := some "first args" },
           { call_id := some "call_2", func_name := some "query_database",
             func_args := some "second args" }])).func_args) ∧
    (∃ row, (processMsg (⟨"s1", "user_1", "t1"⟩ : ReconcileCtx)
        "account_agent" 1 1000 (initTraceState emptyDb)
        (mkAiMsg "m2" "All done." (some "stop") [])).db.chat_history =
        (initTraceState emptyDb).db.chat_history ++ [row] ∧
      row.message_type = "ai" ∧ row.agent_name = some "account_agent" ∧
      row.content = (mkAiMsg "m2" "All done." (some "stop") []).content ∧
      row.finish_reason = (mkAiMsg "m2" "All done." (some "stop") []).finish_reason) :=
  ⟨(ai_event_classification (⟨"s1", "user_1", "t1"⟩ : ReconcileCtx)
      "account_agent" 1 1000 (initTraceState emptyDb)
      (mkAiMsg "m1" "" (some "tool_calls")
        [{ call_id := some "call_1", func_name := some "transfer_money_tool",
           func_args := some "first args" },
         { call_id := some "call_2", func_name := some "query_database",
           func_args := some "second args" }]) rfl).1 rfl,
    ((ai_event_classification (⟨"s1", "user_1", "t1"⟩ : ReconcileCtx)
      "account_agent" 1 1000 (initTraceState emptyDb)
      (mkAiMsg "m2" "All done." (some "stop") []) rfl).2
      (by decide)).1 (by decide)⟩

end BankingFabric
